import Mathlib

/-!
Verification development for the Dataproc JupyterHub spawner
(`dataprocspawner/spawner.py`).

The Python configuration trees (nested dicts mixing strings, booleans,
integers, lists and sub-dicts) are embedded as the inductive type `JVal`.
Python dict assignment is modeled by `aset` (remove the key, append the new
binding); insertion order of mapping entries is not observable by any theorem
below, so this order-normalising representation is sound.  Places where the
Python code would raise `KeyError`/`TypeError` on ill-typed template nodes are
modeled leniently (a non-mapping node read as a mapping yields the empty
mapping); every such place is noted in a comment.  Fallible code paths
(`ValueError` from `int`, `KeyError` from the `Component` enum lookup, the
`_raise_exception` HTTP error used for validation failures, API errors from
the control plane) are modeled with `Except`.
-/

namespace DataprocSpawner

/-- The classes of `google.api_core` exceptions distinguished by
`_create_cluster`. -/
inductive ApiErrKind where
  | invalidArgument : ApiErrKind
  | permissionDenied : ApiErrKind
  | tooManyRequests : ApiErrKind
  | resourceExhausted : ApiErrKind
  deriving Repr, DecidableEq

/-- Errors raised by the embedded code: `ValueError` (failed `int(...)`),
`KeyError` (failed enum/dict lookup), `IndexError` (out-of-range list index),
the HTTP 500 raised by `_raise_exception`, and a re-raised control-plane API
error (kind and message). -/
inductive Err where
  | valueError : Err
  | keyError : String → Err
  | indexError : Err
  | http : String → Err
  | api : ApiErrKind → String → Err
  deriving Repr, DecidableEq

/-- A Python value as it appears in the cluster-configuration trees
(`null` is Python `None`, which the form logic can store in the tree). -/
inductive JVal where
  | null : JVal
  | s : String → JVal
  | b : Bool → JVal
  | i : Int → JVal
  | arr : List JVal → JVal
  | obj : List (String × JVal) → JVal
  deriving Repr

mutual

/-- Structural (Python `==`-style) equality on embedded values.  (The Python
cross-type equalities such as `True == 1` are not modeled; no configuration in
this file mixes value kinds under one key.) -/
def JVal.beq : JVal → JVal → Bool
  | .null, .null => true
  | .s a, .s b => a == b
  | .b a, .b b => a == b
  | .i a, .i b => a == b
  | .arr a, .arr b => beqArr a b
  | .obj a, .obj b => beqObj a b
  | _, _ => false

/-- Pointwise `JVal.beq` on arrays. -/
def beqArr : List JVal → List JVal → Bool
  | [], [] => true
  | x :: xs, y :: ys => JVal.beq x y && beqArr xs ys
  | _, _ => false

/-- Pointwise `JVal.beq` on mappings. -/
def beqObj : List (String × JVal) → List (String × JVal) → Bool
  | [], [] => true
  | (k₁, v₁) :: xs, (k₂, v₂) :: ys => k₁ == k₂ && JVal.beq v₁ v₂ && beqObj xs ys
  | _, _ => false

end

instance : BEq JVal := ⟨JVal.beq⟩

/-- Read a key from an association list (Python `d.get(k)` / `d[k]`). -/
def aget (l : List (String × JVal)) (k : String) : Option JVal :=
  match l with
  | [] => none
  | (k', v) :: t => if k' = k then some v else aget t k

/-- Python `d[k] = v`: any existing binding of `k` is dropped and the new one
appended.  (Python keeps the original position of a replaced key; entry order
is not observed by the theorems in this file.) -/
def aset (l : List (String × JVal)) (k : String) (v : JVal) : List (String × JVal) :=
  (l.filter (fun e => e.1 != k)) ++ [(k, v)]

/-- Python `d.setdefault(k, v)`. -/
def asetdefault (l : List (String × JVal)) (k : String) (v : JVal) :
    List (String × JVal) :=
  match aget l k with
  | some _ => l
  | none => l ++ [(k, v)]

/-- Python `d.pop(k, None)`. -/
def apop (l : List (String × JVal)) (k : String) : List (String × JVal) :=
  l.filter (fun e => e.1 != k)

/-- Python `k in d`. -/
def amem (l : List (String × JVal)) (k : String) : Bool :=
  (aget l k).isSome

/-- View a value as a mapping.  Where the source does `d[k]` on a non-dict the
Python program would raise; the claims all concern well-typed configurations,
so non-mappings are read as the empty mapping. -/
def JVal.asObj : JVal → List (String × JVal)
  | .obj l => l
  | _ => []

/-- View a value as a list (same lenient convention as `JVal.asObj`). -/
def JVal.asArr : JVal → List JVal
  | .arr l => l
  | _ => []

/-- View a value as a string (same lenient convention as `JVal.asObj`). -/
def JVal.asStr : JVal → String
  | .s v => v
  | _ => ""

/-- Python truthiness of an embedded value. -/
def JVal.truthy : JVal → Bool
  | .null => false
  | .s v => v != ""
  | .b v => v
  | .i v => v != 0
  | .arr l => !l.isEmpty
  | .obj l => !l.isEmpty

/-- Convenience: the mapping stored under key `k`, or `[]`. -/
def agetObj (l : List (String × JVal)) (k : String) : List (String × JVal) :=
  ((aget l k).getD (.obj [])).asObj

/-- Convenience: the array stored under key `k`, or `[]`. -/
def agetArr (l : List (String × JVal)) (k : String) : List JVal :=
  ((aget l k).getD (.arr [])).asArr

/-- Convenience: the string stored under key `k`, or `""`. -/
def agetStr (l : List (String × JVal)) (k : String) : String :=
  ((aget l k).getD .null).asStr

/-- Replace the mapping under key `k` by `f` of its current value
(Python `d[k][...] = ...` mutation, flattened; `d[k]` exists at every use
site below thanks to a preceding `setdefault`). -/
def updObj (l : List (String × JVal)) (k : String)
    (f : List (String × JVal) → List (String × JVal)) : List (String × JVal) :=
  aset l k (.obj (f (agetObj l k)))

/-! ## Character-level string helpers

Python string primitives (`split`, `lower`, `in`, `endswith`, negative
indexing) are embedded as structurally recursive functions on `List Char`, so
that every theorem below can be checked by kernel evaluation. -/

/-- Python `s.split(sep)` for a one-character separator: empty parts are kept
and the empty string splits to `[""]`. -/
def splitChar (sep : Char) : List Char → List (List Char)
  | [] => [[]]
  | c :: t =>
    let r := splitChar sep t
    if c = sep then [] :: r
    else
      match r with
      | h :: t2 => (c :: h) :: t2
      | [] => [[c]]

/-- Python `s.split(sep)` on strings, one-character separator. -/
def pySplit (sep : Char) (str : String) : List String :=
  (splitChar sep str.toList).map String.mk

/-- ASCII lower-casing of one character (all strings in this codebase are
ASCII; full Unicode lowering of Python `str.lower` is not modeled). -/
def pyLowerChar (c : Char) : Char :=
  if c.isUpper then Char.ofNat (c.toNat + 32) else c

/-- Python `s.lower()` (ASCII). -/
def pyLower (str : String) : String := String.mk (str.toList.map pyLowerChar)

/-- Python `sub in s` (substring containment) on character lists. -/
def containsSub (pat : List Char) : List Char → Bool
  | [] => pat.isEmpty
  | c :: t => pat.isPrefixOf (c :: t) || containsSub pat t

/-- Python `sub in s` on strings. -/
def pyContains (str sub : String) : Bool := containsSub sub.toList str.toList

/-- Python `s.split('/')[-1]` (a split result is never empty). -/
def lastSegment (str : String) : String := (pySplit '/' str).getLastD ""

/-- Python `s.startswith(pre)`. -/
def pyStartsWith (str pre : String) : Bool := pre.toList.isPrefixOf str.toList

/-- Python `s.endswith(suf)`. -/
def pyEndsWith (str suf : String) : Bool := suf.toList.isSuffixOf str.toList

/-- Python `s.rstrip(c)` for a single character. -/
def pyRstrip (c : Char) (str : String) : String :=
  String.mk ((str.toList.reverse.dropWhile (· = c)).reverse)

/-- Python `pattern.format(arg)` restricted to plain positional placeholders
(nested format specs are not used by any cluster-name pattern). -/
def pyFormat : List Char → String → List Char
  | [], _ => []
  | '{' :: '}' :: t, arg => arg.toList ++ pyFormat t arg
  | c :: t, arg => c :: pyFormat t arg

/-- Python list indexing `l[i]` with negative-index support; `none` is an
`IndexError`. -/
def pyIndex (l : List String) (i : Int) : Option String :=
  if 0 ≤ i then l.get? i.toNat
  else
    let j : Int := l.length + i
    if 0 ≤ j then l.get? j.toNat else none

/-- First-occurrence deduplication of strings (models Python `set(...)`
contents; set iteration order is unspecified in Python and unobserved by the
theorems below). -/
def dedupStr : List String → List String :=
  go []
where
  go (seen : List String) : List String → List String
    | [] => []
    | x :: t => if seen.contains x then go seen t else x :: go (x :: seen) t

/-- First-occurrence deduplication of embedded values (Python `set`). -/
def dedupJ : List JVal → List JVal :=
  go []
where
  go (seen : List JVal) : List JVal → List JVal
    | [] => []
    | x :: t => if seen.any (JVal.beq x) then go seen t else x :: go (x :: seen) t

/-- Python `int(...)` on a string: optional surrounding spaces, an optional
sign, then one or more decimal digits (digit-group underscores are not
modeled; no input below uses them).  `none` is a `ValueError`. -/
def pyInt (str : String) : Option Int :=
  let core := (str.toList.dropWhile Char.isWhitespace).reverse.dropWhile
      Char.isWhitespace |>.reverse
  let digitsVal : List Char → Option Int := fun ds =>
    if ds ≠ [] ∧ ds.all Char.isDigit then
      some (ds.foldl (fun a c => 10 * a + (c.toNat - 48)) 0)
    else none
  match core with
  | '-' :: ds => (digitsVal ds).map Neg.neg
  | '+' :: ds => digitsVal ds
  | ds => digitsVal ds

/-! ## `convert_string_to_duration` (spawner.py lines 1020-1069) -/

/-- Embeds the inner `to_sec` of `convert_string_to_duration`: a non-empty
string keeps all but its final character (`united[:-1]`) as the number and
reads the final character (`united[-1]`) as the unit — `m`/`h`/`d`, anything
else meaning seconds; the empty string is falsy and is returned unchanged.
Every branch parses `int(time_span)` (a failure is a `ValueError` in each
branch alike, so the parse is factored out); the `getLastD` default is
unreachable, as the string is non-empty there. -/
def to_sec (united : String) : Except Err JVal :=
  if united != "" then
    let time_span := String.mk united.toList.dropLast
    let time_unit := united.toList.getLastD 'x'
    match pyInt time_span with
    | none => .error .valueError
    | some n =>
      if time_unit = 'm' then .ok (.i (n * 60))
      else if time_unit = 'h' then .ok (.i (n * 3600))
      else if time_unit = 'd' then .ok (.i (n * 86400))
      else .ok (.i n)
  else .ok (.s united)

/-- The per-initialization-action part of `convert_string_to_duration`: a
string-valued `execution_timeout` is replaced by `{seconds, nanos: 0}`;
anything else is left alone. -/
def convInitAction (a : JVal) : Except Err JVal :=
  match a with
  | .obj fields =>
    match aget fields "execution_timeout" with
    | some (.s t) => do
      let secs ← to_sec t
      pure (.obj (aset fields "execution_timeout"
        (.obj [("seconds", secs), ("nanos", .i 0)])))
    | _ => .ok a
  | _ => .ok a

/-- The `lifecycle_config` part of `convert_string_to_duration` for one of the
two keys `idle_delete_ttl` / `auto_delete_ttl`. -/
def convLifecycleKey (lc : List (String × JVal)) (k : String) :
    Except Err (List (String × JVal)) :=
  match aget lc k with
  | some (.s t) => do
    let secs ← to_sec t
    pure (aset lc k (.obj [("seconds", secs), ("nanos", .i 0)]))
  | _ => .ok lc

/-- Embeds `convert_string_to_duration` (the `data['config']` access raises in
Python when `config` is absent; at the single call site the key always
exists). -/
def convert_string_to_duration (data : JVal) : Except Err JVal := do
  let root := data.asObj
  let config := agetObj root "config"
  -- data['config'].setdefault('initialization_actions', [])
  let config := asetdefault config "initialization_actions" (.arr [])
  let actions := ((aget config "initialization_actions").getD (.arr [])).asArr
  let converted ← actions.mapM convInitAction
  let config := if actions.isEmpty then config
    else aset config "initialization_actions" (.arr converted)
  -- lifecycle_config durations
  let config := asetdefault config "lifecycle_config" (.obj [])
  let lc := agetObj config "lifecycle_config"
  let lc ← convLifecycleKey lc "idle_delete_ttl"
  let lc ← convLifecycleKey lc "auto_delete_ttl"
  let config := aset config "lifecycle_config" (.obj lc)
  pure (.obj (aset root "config" (.obj config)))

/-! ## `_image_version_supports_anaconda` (spawner.py lines 1085-1108) -/

/-- Embeds `_image_version_supports_anaconda`. -/
def _image_version_supports_anaconda (image_version : String) : Bool :=
  let parts := pySplit '-' image_version
  let p0 := parts.headD ""
  if pyLower p0 = "preview" then false
  else if p0 = "2.0.0" ∧ parts.length < 3 then false
  else if p0 = "2.0.0" ∧ ((List.range 11).map (fun i => "RC" ++ toString (i + 1))).contains
      (parts.getD 1 "") then true
  else
    match pyInt ((pySplit '.' p0).headD "") with
    | some major => decide (major < 2)
    | none => true  -- unparsable image version: fail open

/-! ## Progress bar step (spawner.py lines 586-594) -/

/-- Embeds `spawner_progressor.bar += math.ceil((90 - spawner_progressor.bar) / 4)`
(one previously-unseen log entry).  `math.ceil` of the exact rational
`(90 - bar) / 4` is written in kernel-evaluable integer form; the lemma
`progressStep_eq_ceil` proves it equal to the rational-ceiling formula. -/
def progressStep (bar : ℤ) : ℤ := bar + -(Int.ediv (bar - 90) 4)

/-- The in-memory per-cluster progress record
(`SimpleNamespace(bar=..., logging=..., yields=...)`). -/
structure ProgressorState where
  bar : ℤ
  logging : List String
  yields : List (ℤ × String)
  deriving Repr, DecidableEq

/-- Embeds the body of the log-polling loop (lines 586-594): each entry whose
`insert_id` is not yet in the dedup ledger advances the bar by `progressStep`,
is added to the ledger and appended to the replay list; seen entries are
skipped. -/
def processLogEntries (st : ProgressorState) (entries : List (String × String)) :
    ProgressorState :=
  entries.foldl
    (fun st e =>
      if e.1 ∈ st.logging then st
      else
        { bar := progressStep st.bar
          logging := e.1 :: st.logging
          yields := st.yields ++ [(progressStep st.bar, e.2)] })
    st

/-! ## Spawner configuration and form data -/

/-- The admin-configured traitlets and per-spawn attributes of
`DataprocSpawner` that `_build_cluster_config` and the lifecycle methods
read.  `get_image_version` stands for the external Compute API lookup
`_get_image_version` (an external collaborator), and `args_str` / `env_str`
are the strings computed in `create_cluster` before the build. -/
structure SpawnerCfg where
  project : String
  region : String
  zone : String
  dataproc_default_subnet : String
  dataproc_service_account : String
  dataproc_locations_list : String
  idle_checker_idle_job_path : String
  idle_checker_idle_path : String
  idle_checker_timeout : String
  allow_custom_clusters : Bool
  spawner_host_type : String
  force_add_jupyter_component : Bool
  cluster_name_pattern : String
  show_spawned_clusters_in_notebooks_list : Bool
  force_single_user : Bool
  gcs_user_folder : String
  userName : String
  serverName : String
  randStr : String
  args_str : String
  env_str : String
  default_url : String
  get_image_version : String → String

/-- The `user_options` mapping produced by `options_from_form`: each form
field maps to its submitted string or to Python `None`. -/
def UserOptions := List (String × Option String)

/-- Python `self.user_options.get(k)`: `none` when the key is absent or the
stored value is `None`. -/
def uoGet (uo : UserOptions) (k : String) : Option String :=
  match (uo : List (String × Option String)).find? (fun e => e.1 == k) with
  | some e => e.2
  | none => none

/-- Python `self.user_options[k]`: distinguishes a missing key (`none`,
a `KeyError`) from a stored `None` (`some none`). -/
def uoLookup (uo : UserOptions) (k : String) : Option (Option String) :=
  ((uo : List (String × Option String)).find? (fun e => e.1 == k)).map (fun e => e.2)

/-- Truthiness of `self.user_options.get(k)`. -/
def uoTruthy (uo : UserOptions) (k : String) : Bool :=
  match uoGet uo k with
  | some v => v != ""
  | none => false

/-- Python `f-string` rendering of a value that may be `None`. -/
def strOfOpt (o : Option String) : String := o.getD "None"

/-- Embedded value of a form field that may be `None`. -/
def jOfOpt (o : Option String) : JVal :=
  match o with
  | some v => .s v
  | none => .null

/-- Embeds `get_username` (the part of `self.user.name` before `@`, with
every character outside `[a-zA-Z0-9=]` replaced by `-`). -/
def get_username (userName : String) : String :=
  String.mk (((pySplit '@' userName).headD "").toList.map
    (fun c => if c.isAlphanum ∨ c = '=' then c else '-'))

/-- Embeds `clustername()`: the name pattern applied to the normalized
username, an optional named-server suffix, an optional random suffix, all
lower-cased. -/
def clustername (cfg : SpawnerCfg) : String :=
  pyLower (String.mk (pyFormat cfg.cluster_name_pattern.toList (get_username cfg.userName))
    ++ (if cfg.serverName != "" then "-" ++ cfg.serverName else "")
    ++ cfg.randStr)

/-- The `Component` protobuf enum of `google.cloud.dataproc_v1beta2`
(an external collaborator): string name to integer value.  `none` models the
`KeyError` raised by `Component[name]` on an unknown name. -/
def componentValue : String → Option Int
  | "COMPONENT_UNSPECIFIED" => some 0
  | "JUPYTER" => some 1
  | "HIVE_WEBHCAT" => some 3
  | "ZEPPELIN" => some 4
  | "ANACONDA" => some 5
  | "PRESTO" => some 6
  | "KERBEROS" => some 7
  | "ZOOKEEPER" => some 8
  | "DRUID" => some 9
  | "SOLR" => some 10
  | "HBASE" => some 11
  | "RANGER" => some 12
  | "DOCKER" => some 13
  | "FLINK" => some 14
  | _ => none

/-- Python `Component[name].value` where the name is known to be valid. -/
def componentVal (name : String) : Int := (componentValue name).getD 0

/-- The zone URI string built by `_build_cluster_config` and
`change_zone_in_cluster_cfg`. -/
def zoneUriStr (project zone : String) : String :=
  "https://www.googleapis.com/compute/v1/projects/" ++ project ++ "/zones/" ++ zone

/-- Python `' '.join(l)` and friends. -/
def pyJoin (sep : String) : List String → String
  | [] => ""
  | [x] => x
  | x :: t => x ++ sep ++ pyJoin sep t

/-- Embeds `_list_to_dict`: `dict(map(lambda s: s.split(':'), rlist))`.
An item that does not split into exactly two parts raises `ValueError`. -/
def _list_to_dict (rlist : List String) : Except Err (List (String × String)) :=
  rlist.mapM (fun item =>
    match pySplit ':' item with
    | [k, v] => .ok (k, v)
    | _ => .error .valueError)

/-! ## `_apply_users_configs` (spawner.py lines 1189-1340) -/

/-- One package-manager merge of `_apply_users_configs` (pip or conda):
union the space-separated template list with the submitted list, drop empty
entries, and store the joined result (Python builds a `set`; its unspecified
iteration order is not observed by any theorem). -/
def mergePackages (existing newPkgs : String) : String :=
  pyJoin " " (dedupStr ((pySplit ' ' existing ++ pySplit ' ' newPkgs).filter (fun p => p != "")))

/-- The `cluster_props_*` loop of `_apply_users_configs`.  A missing key is a
`KeyError`, caught by the surrounding `try`: the loop stops but earlier
iterations keep their effect. -/
def applyClusterProps (props : UserOptions) : Nat → Nat →
    List (String × JVal) → List (String × JVal)
  | 0, _, swprops => swprops
  | c + 1, i, swprops =>
    match uoLookup props ("cluster_props_prefix_" ++ toString i),
        uoLookup props ("cluster_props_key_" ++ toString i),
        uoLookup props ("cluster_props_val_" ++ toString i) with
    | some pfx, some key, some val =>
      applyClusterProps props c (i + 1)
        (aset swprops (strOfOpt pfx ++ ":" ++ strOfOpt key) (jOfOpt val))
    | _, _, _ => swprops

/-- Embeds `_is_custom_hive_settings`. -/
def _is_custom_hive_settings (uo : UserOptions) : Bool :=
  uoTruthy uo "hive_host" && uoTruthy uo "hive_db" &&
    uoTruthy uo "hive_user" && uoTruthy uo "hive_passwd"

/-- Embeds `_apply_users_configs`: the user-override pass applied when
custom clusters are allowed and requested.  The two `int(...)` calls not
wrapped in `try/except` (`sec_worker_node_amount`) surface as `ValueError`;
the wrapped ones silently skip their block on failure, as in the source. -/
def _apply_users_configs (cfg : SpawnerCfg) (uo : UserOptions) (cluster_data : JVal) :
    Except Err JVal := do
  let root := cluster_data.asObj
  let config := agetObj root "config"
  let config := asetdefault config "initialization_actions" (.arr [])
  -- pip packages
  let config :=
    if uoTruthy uo "pip_packages" then
      let config := asetdefault config "gce_cluster_config" (.obj [])
      let config := updObj config "gce_cluster_config" (fun g =>
        let g := asetdefault g "metadata" (.obj [])
        updObj g "metadata" (fun m =>
          let m := asetdefault m "PIP_PACKAGES" (.s "")
          aset m "PIP_PACKAGES"
            (.s (mergePackages (agetStr m "PIP_PACKAGES") ((uoGet uo "pip_packages").getD "")))))
      aset config "initialization_actions"
        (.arr (agetArr config "initialization_actions" ++
          [.obj [("executable_file",
            .s "gs://dataproc-initialization-actions/python/pip-install.sh")]]))
    else config
  -- conda packages
  let config :=
    if uoTruthy uo "conda_packages" then
      let config := asetdefault config "gce_cluster_config" (.obj [])
      let config := updObj config "gce_cluster_config" (fun g =>
        let g := asetdefault g "metadata" (.obj [])
        updObj g "metadata" (fun m =>
          let m := asetdefault m "CONDA_PACKAGES" (.s "")
          aset m "CONDA_PACKAGES"
            (.s (mergePackages (agetStr m "CONDA_PACKAGES") ((uoGet uo "conda_packages").getD "")))))
      aset config "initialization_actions"
        (.arr (agetArr config "initialization_actions" ++
          [.obj [("executable_file",
            .s "gs://dataproc-initialization-actions/python/conda-install.sh")]]))
    else config
  -- custom initialization actions
  let config :=
    if uoTruthy uo "init_actions" then
      aset config "initialization_actions"
        (.arr (agetArr config "initialization_actions" ++
          ((pySplit ',' ((uoGet uo "init_actions").getD "")).filterMap (fun ia =>
            if pyStartsWith ia "gs://" then some (.obj [("executable_file", .s ia)])
            else none))))
    else config
  -- free-form property triples
  let config :=
    if uoTruthy uo "cluster_props_prefix_0" then
      let props := (uo : List (String × Option String)).filter
        (fun e => pyContains e.1 "cluster_props")
      if props.length % 3 = 0 then
        updObj config "software_config" (fun sw =>
          updObj sw "properties" (applyClusterProps props (props.length / 3) 0))
      else config
    else config
  -- image version / custom image (mutually exclusive)
  let config :=
    if uoTruthy uo "image_version" then
      if uoTruthy uo "custom_image" then
        let ci := (uoGet uo "custom_image").getD ""
        let config := updObj config "master_config" (fun m => aset m "image_uri" (.s ci))
        let config := updObj config "worker_config" (fun w => aset w "image_uri" (.s ci))
        updObj config "software_config" (fun sw =>
          aset sw "image_version" (.s (cfg.get_image_version ci)))
      else
        let config := updObj config "master_config" (fun m => apop m "image_uri")
        let config := updObj config "worker_config" (fun w => apop w "image_uri")
        updObj config "software_config" (fun sw =>
          aset sw "image_version" (.s ((uoGet uo "image_version").getD "")))
    else config
  -- machine types
  let config :=
    if uoTruthy uo "master_node_type" then
      updObj config "master_config" (fun m =>
        aset m "machine_type_uri" (.s ((uoGet uo "master_node_type").getD "")))
    else config
  let config :=
    if uoTruthy uo "worker_node_type" then
      updObj config "worker_config" (fun w =>
        aset w "machine_type_uri" (.s ((uoGet uo "worker_node_type").getD "")))
    else config
  -- disk types
  let config :=
    if uoTruthy uo "master_disk_type" then
      updObj config "master_config" (fun m =>
        let m := asetdefault m "disk_config" (.obj [])
        updObj m "disk_config" (fun d =>
          aset d "boot_disk_type" (.s ((uoGet uo "master_disk_type").getD ""))))
    else config
  let config :=
    if uoTruthy uo "worker_disk_type" then
      updObj config "worker_config" (fun w =>
        let w := asetdefault w "disk_config" (.obj [])
        updObj w "disk_config" (fun d =>
          aset d "boot_disk_type" (.s ((uoGet uo "worker_disk_type").getD ""))))
    else config
  -- disk sizes (int() wrapped in try/except ValueError: pass)
  let config :=
    if uoTruthy uo "master_disk_size" then
      match pyInt ((uoGet uo "master_disk_size").getD "") with
      | some v =>
        updObj config "master_config" (fun m =>
          let m := asetdefault m "disk_config" (.obj [])
          updObj m "disk_config" (fun d => aset d "boot_disk_size_gb" (.i v)))
      | none => config
    else config
  let config :=
    if uoTruthy uo "worker_disk_size" then
      match pyInt ((uoGet uo "worker_disk_size").getD "") with
      | some v =>
        updObj config "worker_config" (fun w =>
          let w := asetdefault w "disk_config" (.obj [])
          updObj w "disk_config" (fun d => aset d "boot_disk_size_gb" (.i v)))
      | none => config
    else config
  let config :=
    if uoTruthy uo "worker_node_amount" then
      match pyInt ((uoGet uo "worker_node_amount").getD "") with
      | some v => updObj config "worker_config" (fun w => aset w "num_instances" (.i v))
      | none => config
    else config
  -- secondary workers
  let config :=
    if uoTruthy uo "sec_worker_disk_type" then
      let config := asetdefault config "secondary_worker_config" (.obj [])
      updObj config "secondary_worker_config" (fun s2 =>
        let s2 := asetdefault s2 "disk_config" (.obj [])
        updObj s2 "disk_config" (fun d =>
          aset d "boot_disk_type" (.s ((uoGet uo "sec_worker_disk_type").getD ""))))
    else config
  let config :=
    if uoTruthy uo "sec_worker_disk_size" then
      match pyInt ((uoGet uo "sec_worker_disk_size").getD "") with
      | some v =>
        let config := asetdefault config "secondary_worker_config" (.obj [])
        updObj config "secondary_worker_config" (fun s2 =>
          let s2 := asetdefault s2 "disk_config" (.obj [])
          updObj s2 "disk_config" (fun d => aset d "boot_disk_size_gb" (.i v)))
      | none => config
    else config
  let config ←
    if uoTruthy uo "sec_worker_node_amount" then
      let config := asetdefault config "secondary_worker_config" (.obj [])
      match pyInt ((uoGet uo "sec_worker_node_amount").getD "") with
      | some v =>
        pure (updObj config "secondary_worker_config"
          (fun s2 => aset s2 "num_instances" (.i v)))
      | none => .error .valueError  -- this int() is not wrapped in try/except
    else pure config
  -- autoscaling policy (the sentinel value 'None' is ignored)
  let autoscaling_policy := (uoGet uo "autoscaling_policy").getD ""
  let config :=
    if autoscaling_policy != "" && autoscaling_policy != "None" then
      aset config "autoscaling_config" (.obj [("policy_uri",
        .s ("https://www.googleapis.com/compute/v1/projects/" ++ cfg.project ++
          "/locations/" ++ cfg.region ++ "/autoscalingPolicies/" ++ autoscaling_policy))])
    else config
  -- Hive settings (all four fields or none)
  let config :=
    if _is_custom_hive_settings uo then
      updObj config "software_config" (fun sw =>
        updObj sw "properties" (fun p =>
          let p := aset p "hive:hive.metastore.schema.verification" (.s "false")
          let p := aset p "hive:javax.jdo.option.ConnectionURL"
            (.s ("jdbc:mysql://" ++ ((uoGet uo "hive_host").getD "") ++ "/" ++
              ((uoGet uo "hive_db").getD "")))
          let p := aset p "hive:javax.jdo.option.ConnectionUserName"
            (jOfOpt (uoGet uo "hive_user"))
          aset p "hive:javax.jdo.option.ConnectionPassword"
            (jOfOpt (uoGet uo "hive_passwd"))))
    else config
  -- custom labels
  let root := aset root "config" (.obj config)
  let root ←
    if uoTruthy uo "custom_labels" then do
      let root := asetdefault root "labels" (.obj [])
      let pairs ← _list_to_dict (pySplit ',' ((uoGet uo "custom_labels").getD ""))
      pure (updObj root "labels" (fun lb =>
        pairs.foldl (fun lb kv => aset lb kv.1 (.s kv.2)) lb))
    else pure root
  pure (.obj root)

/-! ## `_build_cluster_config` (spawner.py lines 1346-1561)

The build is split into named stages composed in source order:
`buildMerged` (lines 1352-1442, the template/form merge),
`buildStamped` (lines 1444-1518, the unconditional overrides),
then `convert_string_to_duration` (line 1521), the subnetwork geo check
(lines 1526-1531), the per-node-group URI strip (lines 1533-1550) and the
namenode-property strip (lines 1552-1558). -/

/-- Embeds `get_cluster_definition` as seen from `_build_cluster_config`:
the admin template chosen by the form is an external blob (`loadDef` stands
for the download-parse-recase pipeline, studied separately via
`get_cluster_definition_transform`); line 798 of the source guarantees a
top-level `config` key via `setdefault`.  `_validate_proto` only deletes
unknown proto fields from the template; because every theorem below
quantifies over all templates, validation is modeled as the identity (the
stripped tree is itself one of the quantified templates). -/
def loadClusterDefinition (loadDef : Option String → JVal) (file : Option String) :
    List (String × JVal) :=
  asetdefault (loadDef file).asObj "config" (.obj [])

/-- Lines 1352-1442: merge of defaults, template and form.  Returns the
merged tree together with the `cluster_zone` local variable. -/
def buildMerged (cfg : SpawnerCfg) (uo : UserOptions) (cluster_data : JVal)
    (loadDef : Option String → JVal) : Except Err (List (String × JVal) × String) := do
  -- `cluster_data = cluster_data or {}` : an empty dict stays empty
  if uo.isEmpty then
    -- `if self.user_options:` is false: no template is read, the zone is
    -- the spawner attribute
    pure (cluster_data.asObj, cfg.zone)
  else do
    let gcs_config_file := uoGet uo "cluster_type"
    let cluster_zone := strOfOpt (uoGet uo "cluster_zone")
    let exclusive_user := uoGet uo "exclusive_user"
    let cd := loadClusterDefinition loadDef gcs_config_file
    -- defaults so that later steps can address nested paths
    let config := agetObj cd "config"
    let config := asetdefault config "gce_cluster_config" (.obj [])
    let config := asetdefault config "master_config" (.obj [])
    let config := asetdefault config "worker_config" (.obj [])
    let config := asetdefault config "initialization_actions" (.arr [])
    let config := asetdefault config "software_config" (.obj [])
    let config := updObj config "software_config"
      (fun sw => asetdefault sw "properties" (.obj []))
    let metadata :=
      if amem (agetObj config "gce_cluster_config") "metadata" then
        agetObj (agetObj config "gce_cluster_config") "metadata"
      else []
    -- user checked the box limiting access to the Component Gateway URL
    let config :=
      if exclusive_user = some "on" then
        updObj config "software_config" (fun sw =>
          updObj sw "properties" (fun p =>
            aset p "dataproc:dataproc.exclusive.user" (.s cfg.userName)))
      else config
    -- default network
    let config :=
      if ¬ amem (agetObj config "gce_cluster_config") "network_uri" ∧
          ¬ amem (agetObj config "gce_cluster_config") "subnetwork_uri" ∧
          cfg.dataproc_default_subnet ≠ "" then
        updObj config "gce_cluster_config" (fun g =>
          aset g "subnetwork_uri" (.s cfg.dataproc_default_subnet))
      else config
    -- cluster identity and scopes
    let config :=
      if ¬ amem (agetObj config "gce_cluster_config") "service_account" ∧
          cfg.dataproc_service_account ≠ "" then
        updObj config "gce_cluster_config" (fun g =>
          let g := aset g "service_account" (.s cfg.dataproc_service_account)
          aset g "service_account_scopes"
            (.arr [.s "https://www.googleapis.com/auth/cloud-platform"]))
      else config
    -- idle-checker initialization action and metadata
    let idleEnabled := cfg.idle_checker_idle_job_path ≠ "" ∧ cfg.idle_checker_idle_path ≠ ""
    let init_actions : List JVal :=
      if idleEnabled then
        [.obj [("executable_file", .s cfg.idle_checker_idle_job_path),
               ("execution_timeout", .obj [("seconds", .i 1800), ("nanos", .i 0)])]]
      else []
    let metadata :=
      if idleEnabled then
        let idle_path := cfg.idle_checker_idle_path
        let idle_path := if pyEndsWith idle_path "isIdle.sh" then
            idle_path.dropRight "isIdle.sh".length else idle_path
        let idle_path := if pyEndsWith idle_path "/" then
            idle_path.dropRight 1 else idle_path
        let metadata := aset metadata "script_storage_location" (.s idle_path)
        aset metadata "max-idle" (.s cfg.idle_checker_timeout)
      else metadata
    let metadata := aset metadata "session-user" (.s (get_username cfg.userName))
    let config := updObj config "gce_cluster_config"
      (fun g => aset g "metadata" (.obj metadata))
    let config := aset config "initialization_actions"
      (.arr (init_actions ++ agetArr config "initialization_actions"))
    let cd := aset cd "config" (.obj config)
    let cd := asetdefault cd "labels" (.obj [])
    let cd ←
      if cfg.allow_custom_clusters && uoTruthy uo "custom_cluster" then
        (do pure (← _apply_users_configs cfg uo (.obj cd)).asObj)
      else pure cd
    -- label tagging the host environment this cluster was spawned from
    let cd := asetdefault cd "labels" (.obj [])
    let cd := updObj cd "labels" (fun lb =>
      aset lb "goog-dataproc-notebook-spawner"
        (.s (if cfg.spawner_host_type ≠ "" then pyLower cfg.spawner_host_type
             else "unknown")))
    pure (cd, cluster_zone)

/-- Enum conversion of one component entry (a string goes through
`Component[...]`, anything else is kept as-is). -/
def componentOfEntry (c : JVal) : Except Err JVal :=
  match c with
  | .s name =>
    match componentValue name with
    | some n => .ok (JVal.i n)
    | none => .error (.keyError name)
  | other => .ok other

/-- Normalization of `optional_components` (lines 1496-1502): strings are
converted through the `Component` enum (an unknown name is a `KeyError`),
then Python set semantics deduplicate. -/
def normalizeComponents (raw : List JVal) : Except Err (List JVal) :=
  match raw.mapM componentOfEntry with
  | .error e => .error e
  | .ok comps => .ok (dedupJ comps)

/-- Lines 1444-1449: the unconditional identity overrides on the root
mapping (project id, cluster name, a `config` default). -/
def stampIdentity (cfg : SpawnerCfg) (root : List (String × JVal)) :
    List (String × JVal) :=
  let root := aset root "project_id" (.s cfg.project)
  let root := aset root "cluster_name" (.s (clustername cfg))
  asetdefault root "config" (.obj [])

/-- Lines 1449-1453: the zone override — exactly the resolved
`cluster_zone`. -/
def stampZone (cfg : SpawnerCfg) (cluster_zone : String)
    (config : List (String × JVal)) : List (String × JVal) :=
  let config := asetdefault config "gce_cluster_config" (.obj [])
  updObj config "gce_cluster_config" (fun g =>
    aset g "zone_uri" (.s (zoneUriStr cfg.project cluster_zone)))

/-- Lines 1455-1459: default shells for `software_config`, its `properties`
and `master_config`. -/
def stampSwShell (config : List (String × JVal)) : List (String × JVal) :=
  let config := asetdefault config "software_config" (.obj [])
  let config := updObj config "software_config"
    (fun sw => asetdefault sw "properties" (.obj []))
  asetdefault config "master_config" (.obj [])

/-- Lines 1461-1472: the three hub-bootstrap properties, the dropped legacy
flag, the notebooks-list tag and the GCS folder. -/
def stampProps (cfg : SpawnerCfg) (props : List (String × JVal)) :
    List (String × JVal) :=
  let props := aset props "dataproc:jupyter.hub.args" (.s cfg.args_str)
  let props := aset props "dataproc:jupyter.hub.env" (.s cfg.env_str)
  let props := aset props "dataproc:jupyter.hub.menu.enabled" (.s "true")
  let props := apop props "dataproc:jupyter.hub.enabled"
  let props :=
    if ¬ cfg.show_spawned_clusters_in_notebooks_list then
      aset props "dataproc:jupyter.instance-tag.enabled" (.s "false")
    else props
  if cfg.gcs_user_folder ≠ "" then
    aset props "dataproc:jupyter.notebook.gcs.dir" (.s cfg.gcs_user_folder)
  else props

/-- Lines 1474-1482: image version — template wins, else derived from a
custom image, else fixed. -/
def stampImage (cfg : SpawnerCfg) (config sw : List (String × JVal)) :
    List (String × JVal) :=
  if ¬ amem sw "image_version" then
    if amem (agetObj config "master_config") "image_uri" then
      aset sw "image_version"
        (.s (cfg.get_image_version (agetStr (agetObj config "master_config") "image_uri")))
    else aset sw "image_version" (.s "1.4-debian9")
  else sw

/-- Lines 1484-1488: one-way convergence of the exclusive-user property to
the caller. -/
def stampExclusive (cfg : SpawnerCfg) (props : List (String × JVal)) :
    List (String × JVal) :=
  if cfg.force_single_user ∨ amem props "dataproc:dataproc.exclusive.user" then
    aset props "dataproc:dataproc.exclusive.user" (.s cfg.userName)
  else props

/-- Lines 1490-1493: forces Component Gateway. -/
def stampGateway (config : List (String × JVal)) : List (String × JVal) :=
  let config := asetdefault config "endpoint_config" (.obj [])
  updObj config "endpoint_config" (fun e =>
    aset e "enable_http_port_access" (.b true))

/-- Lines 1495-1516: optional components — convert names to enum values, set
semantics, then the forced Jupyter/Anaconda adjustment. -/
def stampComponents (cfg : SpawnerCfg) (sw : List (String × JVal)) :
    Except Err (List (String × JVal)) :=
  let sw := asetdefault sw "optional_components" (.arr [])
  match normalizeComponents (agetArr sw "optional_components") with
  | .error e => .error e
  | .ok comps =>
    let comps :=
      if cfg.force_add_jupyter_component then
        let comps :=
          if comps.any (JVal.beq (.i (componentVal "JUPYTER"))) then comps
          else comps ++ [.i (componentVal "JUPYTER")]
        if _image_version_supports_anaconda (agetStr sw "image_version") then
          if comps.any (JVal.beq (.i (componentVal "ANACONDA"))) then comps
          else comps ++ [.i (componentVal "ANACONDA")]
        else comps.filter (fun v => ¬ JVal.beq v (.i (componentVal "ANACONDA")))
      else comps
    .ok (aset sw "optional_components" (.arr comps))

/-- Lines 1461-1472 wrapped: the `software_config` mapping after the
properties stamp. -/
def stampSw1 (cfg : SpawnerCfg) (config : List (String × JVal)) :
    List (String × JVal) :=
  let sw := agetObj config "software_config"
  aset sw "properties" (.obj (stampProps cfg (agetObj sw "properties")))

/-- Lines 1461-1488: the `software_config` mapping after the properties,
image-version and exclusive-user stamps. -/
def stampSwX (cfg : SpawnerCfg) (config : List (String × JVal)) :
    List (String × JVal) :=
  let sw := stampImage cfg config (stampSw1 cfg config)
  aset sw "properties" (.obj (stampExclusive cfg (agetObj sw "properties")))

/-- Lines 1449-1493: the `config` mapping after the zone, software and
Component Gateway stamps. -/
def stampConfigG (cfg : SpawnerCfg) (cluster_zone : String)
    (root : List (String × JVal)) : List (String × JVal) :=
  let config := stampSwShell (stampZone cfg cluster_zone (agetObj root "config"))
  stampGateway (aset config "software_config" (.obj (stampSwX cfg config)))

/-- Line 1518: reassembly of the stamped request (the component conversion
may fail with a `KeyError`). -/
def stampAssemble (root config : List (String × JVal))
    (sw2e : Except Err (List (String × JVal))) : Except Err JVal :=
  match sw2e with
  | .error e => .error e
  | .ok sw2 =>
    .ok (.obj (aset root "config" (.obj (aset config "software_config" (.obj sw2)))))

/-- Lines 1444-1518: the unconditional overrides (identity, zone, the three
hub software properties, image version, single-user property, Component
Gateway, optional components), applied to the merge result and the resolved
`cluster_zone`, in source order through the stage functions above. -/
def stampTail (cfg : SpawnerCfg) (rz : List (String × JVal) × String) : Except Err JVal :=
  let root := stampIdentity cfg rz.1
  let config := stampConfigG cfg rz.2 root
  stampAssemble root config (stampComponents cfg (agetObj config "software_config"))

/-- Lines 1444-1518 applied after the merge. -/
def buildStamped (cfg : SpawnerCfg) (uo : UserOptions) (cluster_data : JVal)
    (loadDef : Option String → JVal) : Except Err JVal :=
  match buildMerged cfg uo cluster_data loadDef with
  | .error e => .error e
  | .ok rz => stampTail cfg rz

/-! ## `_check_uri_geo` (spawner.py lines 1071-1083) -/

/-- The message of the geo-mismatch `_raise_exception`. -/
def uriGeoMessage (uri_geo uri expected_geo : String) : String :=
  "The location " ++ uri_geo ++ " of the uri " ++ uri ++
    " in the yaml file does not match the Dataproc Hub one " ++ expected_geo ++
    ". Please contact your admnistrator."

/-- Embeds `_check_uri_geo`: for a multi-segment URI, read the geo segment at
the given (possibly negative) index, optionally trim a zone letter, and raise
through `_raise_exception` when it matches neither the expected geo nor
`"global"`. -/
def _check_uri_geo (uri : String) (uri_geo_slice : Int) (expected_geo : String)
    (trim_zone : Bool) : Except Err String :=
  let uri_data := pySplit '/' uri
  if uri_data.length > 1 then
    match pyIndex uri_data uri_geo_slice with
    | none => .error .indexError
    | some geo0 =>
      let uri_geo := if trim_zone then geo0.dropRight 2 else geo0
      if uri_geo ≠ expected_geo ∧ uri_geo ≠ "global" then
        .error (.http (uriGeoMessage uri_geo uri expected_geo))
      else .ok (if uri_geo ≠ "" then uri_geo else uri)
  else .ok uri

/-- Lines 1526-1531: geo-validate `subnetwork_uri` when present. -/
def checkClusterSubnet (cfg : SpawnerCfg) (data : JVal) : Except Err Unit :=
  let gcc := agetObj (agetObj data.asObj "config") "gce_cluster_config"
  match aget gcc "subnetwork_uri" with
  | some v => do
    let _ ← _check_uri_geo v.asStr (-3) cfg.region false
    pure ()
  | none => pure ()

/-- Lines 1533-1550: truncate machine-type and accelerator URIs to their
trailing path segment in every present node group.  (Python indexes
`acc_val['accelerator_type_uri']` unconditionally; an accelerator entry
without that key would raise — modeled leniently as the empty string, which
no claim observes.) -/
def stripGroupStep (config : List (String × JVal)) (grp : String) :
    List (String × JVal) :=
  if amem config grp then
    let g := agetObj config grp
    let g :=
      if amem g "machine_type_uri" then
        aset g "machine_type_uri" (.s (lastSegment (agetStr g "machine_type_uri")))
      else g
    let g :=
      if amem g "accelerators" then
        aset g "accelerators" (.arr ((agetArr g "accelerators").map (fun a =>
          .obj (aset a.asObj "accelerator_type_uri"
            (.s (lastSegment (agetStr a.asObj "accelerator_type_uri")))))))
      else g
    aset config grp (.obj g)
  else config

/-- Lines 1533-1550 over the three node groups. -/
def stripServerGroupUris (data : JVal) : JVal :=
  let root := data.asObj
  let config := agetObj root "config"
  let config := ["master_config", "worker_config", "secondary_worker_config"].foldl
    stripGroupStep config
  .obj (aset root "config" (.obj config))

/-- Lines 1552-1558: drop the two cluster-specific namenode properties when
both `software_config` and its `properties` are (or default to) non-empty. -/
def stripNamenodeProps (data : JVal) : JVal :=
  let root := data.asObj
  let config := agetObj root "config"
  let config := asetdefault config "software_config" (.obj [])
  let sw := agetObj config "software_config"
  let config :=
    if sw.isEmpty then config
    else
      let sw := asetdefault sw "properties" (.obj [])
      let props := agetObj sw "properties"
      let sw :=
        if props.isEmpty then sw
        else aset sw "properties" (.obj
          (apop (apop props "hdfs:dfs.namenode.lifeline.rpc-address")
            "hdfs:dfs.namenode.servicerpc-address"))
      aset config "software_config" (.obj sw)
  .obj (aset root "config" (.obj config))

/-- Stages of `_build_cluster_config` up to and including the duration
normalization (line 1521), i.e. the tree the geo check examines. -/
def buildPreGeo (cfg : SpawnerCfg) (uo : UserOptions) (cluster_data : JVal)
    (loadDef : Option String → JVal) : Except Err JVal := do
  convert_string_to_duration (← buildStamped cfg uo cluster_data loadDef)

/-- Embeds `_build_cluster_config` end to end. -/
def _build_cluster_config (cfg : SpawnerCfg) (uo : UserOptions) (cluster_data : JVal)
    (loadDef : Option String → JVal) : Except Err JVal := do
  let data ← buildPreGeo cfg uo cluster_data loadDef
  let _ ← checkClusterSubnet cfg data
  pure (stripNamenodeProps (stripServerGroupUris data))

/-! ## `change_zone_in_cluster_cfg` and `_create_cluster`
(spawner.py lines 854-918) -/

/-- Embeds `change_zone_in_cluster_cfg`.  `rand` models `random.choice` on
the non-empty candidate list.  (`zone_uri` is present at every call site —
the build stamps it; its absence would be a Python `KeyError`.) -/
def change_zone_in_cluster_cfg (cfg : SpawnerCfg) (rand : List String → String)
    (cluster_data : JVal) : JVal :=
  let root := cluster_data.asObj
  let current_zone_tmp :=
    lastSegment (agetStr (agetObj (agetObj root "config") "gce_cluster_config") "zone_uri")
  let current_zone := current_zone_tmp.takeRight 1  -- `[-1]` as a 1-char string
  let locations_list := pySplit ',' cfg.dataproc_locations_list
  let zones_list := locations_list.map (fun zl => cfg.region ++ "-" ++ zl)
  let new_zone :=
    match (locations_list.filter (fun zl => zl ≠ current_zone)).getLast? with
    | some zl => cfg.region ++ "-" ++ zl  -- last letter differing from the current one
    | none =>
      if ¬ zones_list.isEmpty then rand zones_list
      else current_zone_tmp  -- dead in Python: split(',') is never empty
  let config := agetObj root "config"
  let config := updObj config "gce_cluster_config" (fun g =>
    aset g "zone_uri" (.s (zoneUriStr cfg.project new_zone)))
  .obj (aset root "config" (.obj config))

/-- Outcome of one `create_cluster` call when no retry budget remains:
success, the `_raise_exception` on `InvalidArgument`, or the re-raise of the
quota-class error (`raise e`). -/
def attemptOutcome (cluster_data : JVal) (resp : Option (ApiErrKind × String)) :
    List JVal × Except Err Unit :=
  match resp with
  | none => ([cluster_data], .ok ())
  | some km =>
    if km.1 = .invalidArgument then ([cluster_data], .error (.http km.2))
    else ([cluster_data], .error (.api km.1 km.2))

/-- Embeds the retry loop of `_create_cluster`.  `oracle n` is the control
plane behavior on the `n`-th `create_cluster` call (`none` = success,
otherwise the exception kind and message).  Returns the request submitted on
each call together with the outcome; the recursion mirrors
`try_count -= 1; if try_count > 0: change zone, retry`. -/
def _create_cluster (cfg : SpawnerCfg) (rand : List String → String)
    (oracle : Nat → Option (ApiErrKind × String)) :
    JVal → Nat → Nat → List JVal × Except Err Unit
  | cluster_data, 0, attempt => attemptOutcome cluster_data (oracle attempt)
  | cluster_data, 1, attempt => attemptOutcome cluster_data (oracle attempt)
  | cluster_data, t + 2, attempt =>
    match oracle attempt with
    | none => ([cluster_data], .ok ())
    | some km =>
      if km.1 = .invalidArgument then
        -- `_raise_exception(e.message)`
        ([cluster_data], .error (.http km.2))
      else
        -- on quota/permission/rate errors the status is queried for a log line
        -- (no control-flow effect), then `try_count -= 1; if try_count > 0:`
        -- change the zone and retry (`try_count ≥ 2` on entry)
        let r := _create_cluster cfg rand oracle
          (change_zone_in_cluster_cfg cfg rand cluster_data) (t + 1) (attempt + 1)
        (cluster_data :: r.1, r.2)

/-- Embeds `create_cluster`: build the request, then submit it through the
retry loop (`_create_cluster(self.cluster_definition)` with the default
budget of 3).  When the build fails, no control-plane call is made. -/
def create_cluster_calls (cfg : SpawnerCfg) (uo : UserOptions) (cluster_data : JVal)
    (loadDef : Option String → JVal) (rand : List String → String)
    (oracle : Nat → Option (ApiErrKind × String)) : List JVal × Except Err Unit :=
  match _build_cluster_config cfg uo cluster_data loadDef with
  | .error e => ([], .error e)
  | .ok data => _create_cluster cfg rand oracle data 3 0

/-! ## Lifecycle orchestration (`start`, spawner.py lines 421-466)

The control plane is the sole source of truth: every lifecycle call queries
it afresh.  For one resolved cluster name its record is `Option ModelCluster`
(`none` is `NotFound`).  `start`'s `create_cluster` internals are the
functions above (`create_cluster_calls` — build plus the `_create_cluster`
retry loop, driven by the control-plane `oracle`); a successful creation
registers the record the platform then holds, supplied as the `client`
parameter. -/

/-- The `ClusterStatus.State` enumeration values the spawner distinguishes. -/
inductive ClusterState where
  | UNKNOWN : ClusterState
  | CREATING : ClusterState
  | RUNNING : ClusterState
  | ERROR : ClusterState
  | DELETING : ClusterState
  | UPDATING : ClusterState
  deriving Repr, DecidableEq

/-- The slice of a control-plane `Cluster` record the spawner reads: its
status state and `config.endpoint_config.http_ports` (`none` models an unset,
falsy `endpoint_config`). -/
structure ModelCluster where
  state : ClusterState
  httpPorts : Option (List (String × String))
  deriving Repr, DecidableEq

/-- Embeds `get_cluster_status` (via `get_cluster`, which maps `NotFound` and
API errors to `None`). -/
def get_cluster_status (rec : Option ModelCluster) : Option ClusterState :=
  rec.map (fun c => c.state)

/-- Embeds `exists`. -/
def cluster_exists (rec : Option ModelCluster) : Bool := rec.isSome

/-- Embeds `get_cluster_notebook_endpoint`: pick `JupyterLab` when the
configured default URL mentions `lab`, require the endpoint config and the
port, and strip the trailing slash. -/
def get_cluster_notebook_endpoint (default_url : String) (rec : Option ModelCluster) :
    Except Err String :=
  let endpoint_name := if pyContains default_url "lab" then "JupyterLab" else "Jupyter"
  match rec with
  | none => .error (.http "Can not get cluster information.")
  | some c =>
    match c.httpPorts with
    | none => .error (.http "No endpoint_config set.")
    | some ports =>
      match ports.find? (fun e => e.1 == endpoint_name) with
      | none => .error (.http "No Jupyter endpoint configured.")
      | some e => .ok (pyRstrip '/' e.2)

/-- Outcome of one `start()` call: the control-plane record afterwards, how
many `create_cluster` calls were issued, and the returned gateway URL or the
raised error. -/
structure StartResult where
  record : Option ModelCluster
  creates : Nat
  result : Except Err String
  deriving Repr

/-- Embeds `start()` (lines 421-466) against the control-plane record `s0`:
fail without a project; fail on a pending deletion; when the cluster does not
exist, run `create_cluster` — the configuration build plus the
`_create_cluster` retry loop above, whose submission list is exactly the
client `create_cluster` calls issued — propagating its error and otherwise
registering the record the platform then holds (`client`); finally resolve
the Component Gateway endpoint of the (new or existing) cluster.
(`create_example_notebooks` touches only blob storage; the JupyterHub
bookkeeping after the endpoint resolution performs no control-plane calls.) -/
def startModel (cfg : SpawnerCfg) (uo : UserOptions) (cluster_data : JVal)
    (loadDef : Option String → JVal) (rand : List String → String)
    (oracle : Nat → Option (ApiErrKind × String)) (client : ModelCluster)
    (s0 : Option ModelCluster) : StartResult :=
  if cfg.project = "" then
    ⟨s0, 0, .error (.http "You need to set a project")⟩
  else if get_cluster_status s0 = some .DELETING then
    ⟨s0, 0, .error (.http ("Cluster " ++ clustername cfg ++ " is pending deletion."))⟩
  else
    let r : List JVal × Except Err Unit :=
      if cluster_exists s0 then ([], .ok ())
      else create_cluster_calls cfg uo cluster_data loadDef rand oracle
    match r.2 with
    | .error e => ⟨s0, r.1.length, .error e⟩
    | .ok _ =>
      let s1 := if cluster_exists s0 then s0 else some client
      match get_cluster_notebook_endpoint cfg.default_url s1 with
      | .ok url => ⟨s1, r.1.length, .ok url⟩
      | .error e => ⟨s1, r.1.length, .error e⟩

/-! ## Template loader (`get_cluster_definition`, spawner.py lines 759-825)

`get_cluster_definition` re-cases the admin YAML *textually*: it dumps the
parsed tree back to YAML, runs three regex substitutions over the text, and
re-parses — after first extracting the software-properties and
instance-metadata subtrees and splicing them back afterwards.  The YAML tree
is `Yaml`; `yamlDump`/`yamlParse` model the external `yaml.dump`/`yaml.load`
(block style, two-space indent, keys sorted on dump, plain scalars — the
fragment the dumped configurations use); the `re.sub` calls are embedded as
the character transducers `recasePass1/2/3`. -/

/-- A parsed YAML tree (string scalars and mappings — the fragment the
cluster templates use). -/
inductive Yaml where
  | str : String → Yaml
  | map : List (String × Yaml) → Yaml
  deriving Repr

/-- View as a mapping (Python raises on a non-mapping; the claims stay in the
well-typed fragment). -/
def Yaml.asMap : Yaml → List (String × Yaml)
  | .map es => es
  | _ => []

/-- Python truthiness of a YAML node. -/
def yTruthy : Yaml → Bool
  | .str v => v != ""
  | .map es => !es.isEmpty

/-- Key lookup in a YAML mapping. -/
def ymGet (l : List (String × Yaml)) (k : String) : Option Yaml :=
  match l with
  | [] => none
  | (k', v) :: t => if k' = k then some v else ymGet t k

/-- Python `d[k] = v` on a YAML mapping (same order-normalising convention as
`aset`). -/
def ymSet (l : List (String × Yaml)) (k : String) (v : Yaml) : List (String × Yaml) :=
  (l.filter (fun e => e.1 != k)) ++ [(k, v)]

/-- Python `del d[k]` on a YAML mapping. -/
def ymDel (l : List (String × Yaml)) (k : String) : List (String × Yaml) :=
  l.filter (fun e => e.1 != k)

/-- Python `d.setdefault(k, v)` on a YAML mapping. -/
def ymSetdefault (l : List (String × Yaml)) (k : String) (v : Yaml) :
    List (String × Yaml) :=
  match ymGet l k with
  | some _ => l
  | none => l ++ [(k, v)]

/-- Update the mapping stored under `k` (which exists at every use site). -/
def ymUpd (l : List (String × Yaml)) (k : String)
    (f : List (String × Yaml) → List (String × Yaml)) : List (String × Yaml) :=
  ymSet l k (.map (f (((ymGet l k).getD (.map [])).asMap)))

/-- Lexicographic (codepoint) order on strings, as Python compares the keys
PyYAML sorts. -/
def charListLe : List Char → List Char → Bool
  | [], _ => true
  | _ :: _, [] => false
  | a :: as, b :: bs => if a = b then charListLe as bs else decide (a < b)

/-- Insertion into a key-sorted entry list. -/
def insertSorted (e : String × Yaml) : List (String × Yaml) → List (String × Yaml)
  | [] => [e]
  | x :: t => if charListLe e.1.toList x.1.toList then e :: x :: t else x :: insertSorted e t

/-- Sort entries by key (PyYAML sorts keys when dumping). -/
def sortEntries (l : List (String × Yaml)) : List (String × Yaml) :=
  l.foldr insertSorted []

mutual

/-- Recursively sort every mapping of a tree by key. -/
def sortYaml : Yaml → Yaml
  | .str v => .str v
  | .map es => .map (sortEntries (sortYamlEntries es))

/-- Helper of `sortYaml` on entry lists. -/
def sortYamlEntries : List (String × Yaml) → List (String × Yaml)
  | [] => []
  | (k, v) :: t => (k, sortYaml v) :: sortYamlEntries t

end

mutual

/-- Block-style dump of one (already key-sorted) entry at the given
two-space indent level. -/
def dumpNode (indent : Nat) (k : String) : Yaml → List String
  | .str v => [String.mk (List.replicate (2 * indent) ' ') ++ k ++ ": " ++ v]
  | .map es =>
    if es.isEmpty then [String.mk (List.replicate (2 * indent) ' ') ++ k ++ ": \x7b\x7d"]
    else (String.mk (List.replicate (2 * indent) ' ') ++ k ++ ":") ::
      dumpEntries (indent + 1) es

/-- Block-style dump of an entry list, one line per list element. -/
def dumpEntries (indent : Nat) : List (String × Yaml) → List String
  | [] => []
  | (k, v) :: t => dumpNode indent k v ++ dumpEntries indent t

end

/-- Models `yaml.dump` on the block-mapping fragment: keys sorted, two-space
indent, plain scalars, one trailing newline per line. -/
def yamlDump (d : Yaml) : String :=
  pyJoin "\n" (dumpEntries 0 (sortYaml d).asMap) ++ "\n"

/-- Character class of the first regex of `camelcase_to_snakecase`
(`[_a-z \t-]`). -/
def isClass1 (c : Char) : Bool :=
  c = '_' || c.isLower || c = ' ' || c = '\t' || c = '-'

/-- First substitution, `re.sub('(^[_a-z \t-]*)([a-z])([A-Z])', r'\1\2_\3', cc)`:
without `re.M` the anchor matches only at the start of the whole string, so at
most one underscore is inserted, after the longest class-character prefix when
it ends in a lowercase letter followed by an uppercase one. -/
def recasePass1 (l : List Char) : List Char :=
  let k := (l.takeWhile isClass1).length
  if k = 0 then l
  else
    match l.get? (k - 1), l.get? k with
    | some c1, some c2 =>
      if c1.isLower && c2.isUpper then l.take k ++ '_' :: l.drop k else l
    | _, _ => l

/-- The lookahead `(?=.+:)` of the second regex: at least one more character
then a colon, all on the current line (`.` does not match a newline). -/
def colonAhead (rest : List Char) : Bool :=
  ((rest.takeWhile (fun c => c ≠ '\n')).drop 1).contains ':'

/-- Second substitution, `re.sub('([a-z])([A-Z])(?=.+:)', r'\1_\2', sc)`:
every lowercase-uppercase transition with a colon at distance at least two on
the same line gets an underscore; scanning resumes after the matched pair. -/
def recasePass2 : List Char → List Char
  | [] => []
  | [c] => [c]
  | a :: b :: rest =>
    if a.isLower && b.isUpper && colonAhead rest then a :: '_' :: b :: recasePass2 rest
    else a :: recasePass2 (b :: rest)

/-- Word characters of the third regex (`[a-zA-Z0-9_]`). -/
def isWordChar (c : Char) : Bool := c.isAlpha || c.isDigit || c = '_'

/-- Third substitution, `re.sub('([a-zA-Z0-9_]+):', lambda m: m.group(0).lower(), sc)`:
every maximal word-character run directly followed by a colon is lower-cased
(`run` accumulates the current candidate in reverse). -/
def recasePass3 (run : List Char) : List Char → List Char
  | [] => run.reverse
  | c :: t =>
    if isWordChar c then recasePass3 (c :: run) t
    else if c = ':' && !run.isEmpty then
      (run.reverse.map pyLowerChar) ++ ':' :: recasePass3 [] t
    else run.reverse ++ c :: recasePass3 [] t

/-- Embeds `camelcase_to_snakecase` (spawner.py lines 759-769): the three
`re.sub` passes over the dumped YAML text. -/
def camelcase_to_snakecase (cc : String) : String :=
  String.mk (recasePass3 [] (recasePass2 (recasePass1 cc.toList)))

/-- Split a line at its first `": "` (scalar entry) if any. -/
def splitColonSpace : List Char → Option (List Char × List Char)
  | [] => none
  | ':' :: ' ' :: t => some ([], t)
  | c :: t => (splitColonSpace t).map (fun p => (c :: p.1, p.2))

/-- Indentation level (two spaces each) and content of one line. -/
def indentAndContent (line : String) : Nat × String :=
  let sp := line.toList.takeWhile (fun c => c = ' ')
  (sp.length / 2, String.mk (line.toList.dropWhile (fun c => c = ' ')))

/-- Recursive-descent parser for the dumped block fragment (fuel-driven so
that every theorem evaluates in the kernel).  Returns the entries at the
given indent and the unconsumed lines. -/
def parseBlock : Nat → Nat → List String → List (String × Yaml) × List String
  | 0, _, lines => ([], lines)
  | _ + 1, _, [] => ([], [])
  | fuel + 1, indent, line :: rest =>
    let ic := indentAndContent line
    if ic.1 ≠ indent then ([], line :: rest)
    else
      match splitColonSpace ic.2.toList with
      | some kv =>
        let r := parseBlock fuel indent rest
        ((String.mk kv.1, .str (String.mk kv.2)) :: r.1, r.2)
      | none =>
        if ic.2.toList.getLast? = some ':' then
          let key := String.mk ic.2.toList.dropLast
          let kids := parseBlock fuel (indent + 1) rest
          let sibs := parseBlock fuel indent kids.2
          ((key, .map kids.1) :: sibs.1, sibs.2)
        else ([], line :: rest)

/-- Models `yaml.load` on the dumped block fragment. -/
def yamlParse (text : String) : Yaml :=
  let lines := (pySplit '\n' text).filter (fun l => l != "")
  .map (parseBlock (2 * lines.length + 4) 0 lines).1

/-- Embeds `get_cluster_definition` from the parsed template onward (lines
796-825): extract the `softwareConfig.properties` and
`gceClusterConfig.metadata` subtrees, dump, re-case, re-parse, splice the
extracted subtrees back (only when truthy, as in the source). -/
def get_cluster_definition_transform (config_dict : Yaml) : Yaml :=
  let root := ymSetdefault config_dict.asMap "config" (.map [])
  let config := ((ymGet root "config").getD (.map [])).asMap
  -- if 'properties' in config['config'].setdefault('softwareConfig', {})
  let config := ymSetdefault config "softwareConfig" (.map [])
  let swc := ((ymGet config "softwareConfig").getD (.map [])).asMap
  let skip_properties := ymGet swc "properties"
  let config :=
    match skip_properties with
    | some _ => ymSet config "softwareConfig" (.map (ymDel swc "properties"))
    | none => config
  -- if 'metadata' in config['config'].setdefault('gceClusterConfig', {})
  let config := ymSetdefault config "gceClusterConfig" (.map [])
  let gcc := ((ymGet config "gceClusterConfig").getD (.map [])).asMap
  let skip_metadata := ymGet gcc "metadata"
  let config :=
    match skip_metadata with
    | some _ => ymSet config "gceClusterConfig" (.map (ymDel gcc "metadata"))
    | none => config
  let root := ymSet root "config" (.map config)
  -- dump, re-case, re-parse
  let parsed := yamlParse (camelcase_to_snakecase (yamlDump (.map root)))
  -- splice the opaque subtrees back (`if skip_properties:` truthiness)
  let parsed :=
    match skip_properties with
    | some v =>
      if yTruthy v then
        .map (ymUpd parsed.asMap "config" (fun c =>
          ymUpd c "software_config" (fun sw => ymSet sw "properties" v)))
      else parsed
    | none => parsed
  let parsed :=
    match skip_metadata with
    | some v =>
      if yTruthy v then
        .map (ymUpd parsed.asMap "config" (fun c =>
          ymUpd c "gce_cluster_config" (fun g => ymSet g "metadata" v)))
      else parsed
    | none => parsed
  parsed

/-! ## Accessors and concrete fixtures used by the theorems -/

/-- Truthiness of the `isinstance(x, str)` test. -/
def JVal.isStr : JVal → Bool
  | .s _ => true
  | _ => false

/-- The `config` mapping of a built request. -/
def cfgOf (r : JVal) : List (String × JVal) := agetObj r.asObj "config"

/-- The `config.gce_cluster_config` mapping of a built request. -/
def gceOf (r : JVal) : List (String × JVal) := agetObj (cfgOf r) "gce_cluster_config"

/-- The `config.software_config` mapping of a built request. -/
def swOf (r : JVal) : List (String × JVal) := agetObj (cfgOf r) "software_config"

/-- The `config.software_config.properties` mapping of a built request. -/
def propsOf (r : JVal) : List (String × JVal) := agetObj (swOf r) "properties"

/-- The `config.software_config.optional_components` list of a built request. -/
def componentsOf (r : JVal) : List JVal := agetArr (swOf r) "optional_components"

/-- The `config.initialization_actions` list. -/
def initActionsOf (r : JVal) : List JVal := agetArr (cfgOf r) "initialization_actions"

/-- The `config.lifecycle_config` mapping. -/
def lifecycleOf (r : JVal) : List (String × JVal) := agetObj (cfgOf r) "lifecycle_config"

/-- How many entries of a mapping bind the key `k`. -/
def countKey (l : List (String × JVal)) (k : String) : Nat :=
  (l.filter (fun e => e.1 == k)).length

/-- Whether a built request carries the optional component of value `n`. -/
def hasComponent (r : JVal) (n : Int) : Bool :=
  (componentsOf r).any (JVal.beq (.i n))

/-- The string under an optional value, or `""`. -/
def jStrOf (o : Option JVal) : String :=
  match o with
  | some (.s v) => v
  | _ => ""

/-- Path lookup in a YAML tree. -/
def ymPath : List String → Yaml → Option Yaml
  | [], y => some y
  | k :: t, y =>
    match y with
    | .map es =>
      match ymGet es k with
      | some v => ymPath t v
      | none => none
    | _ => none

/-- A concrete operator configuration used by the witnesses. -/
def witnessCfg : SpawnerCfg where
  project := "test-project"
  region := "us-central1"
  zone := "us-central1-a"
  dataproc_default_subnet := ""
  dataproc_service_account := ""
  dataproc_locations_list := "a,b"
  idle_checker_idle_job_path := ""
  idle_checker_idle_path := ""
  idle_checker_timeout := "60m"
  allow_custom_clusters := false
  spawner_host_type := ""
  force_add_jupyter_component := true
  cluster_name_pattern := "dataprochub-\x7b\x7d"
  show_spawned_clusters_in_notebooks_list := false
  force_single_user := false
  gcs_user_folder := ""
  userName := "user@example.com"
  serverName := ""
  randStr := ""
  args_str := "ARGS"
  env_str := "ENV"
  default_url := ""
  get_image_version := fun _ => "9.9.9"

/-- A trivial template loader (the chosen template resolves to `{}`). -/
def noTemplate : Option String → JVal := fun _ => .obj []

/-- An admin `cluster_data` declaring only an image version. -/
def imageTemplate (v : String) : JVal :=
  .obj [("config", .obj [("software_config", .obj [("image_version", .s v)])])]

/-- The build of `imageTemplate v` with no form submission. -/
def anacondaBuild (v : String) : Except Err JVal :=
  _build_cluster_config witnessCfg [] (imageTemplate v) noTemplate

/-- Whether that build succeeded and carries `ANACONDA`. -/
def buildHasAnaconda (v : String) : Bool :=
  match anacondaBuild v with
  | .ok r => hasComponent r (componentVal "ANACONDA")
  | .error _ => false

/-- An admin `cluster_data` declaring a zone (for the zone-priority claim). -/
def zoneTemplate : JVal :=
  .obj [("config", .obj [("gce_cluster_config",
    .obj [("zone_uri", .s (zoneUriStr "p" "us-east1-b"))])])]

/-- The `zone_uri` of a build outcome (or `""` when it failed). -/
def zoneStrOf (e : Except Err JVal) : String :=
  match e with
  | .ok r => jStrOf (aget (gceOf r) "zone_uri")
  | .error _ => ""

/-- An admin `cluster_data` whose subnetwork lives in another region. -/
def subnetTemplate (reg : String) : JVal :=
  .obj [("config", .obj [("gce_cluster_config",
    .obj [("subnetwork_uri",
      .s ("projects/test-project/regions/" ++ reg ++ "/subnetworks/default"))])])]

/-- A configuration tree with a string duration and a structured one. -/
def durationTemplate : JVal :=
  .obj [("config", .obj [
    ("initialization_actions", .arr [.obj [
      ("executable_file", .s "gs://bucket/startup.sh"),
      ("execution_timeout", .s "10m")]]),
    ("lifecycle_config", .obj [
      ("idle_delete_ttl", .obj [("seconds", .i 300), ("nanos", .i 0)])])])]

/-- Control-plane behavior: every create attempt fails with a quota error. -/
def quotaOracle : Nat → Option (ApiErrKind × String) :=
  fun _ => some (.resourceExhausted, "quota exceeded")

/-- Control-plane behavior: every create attempt fails with a semantic error. -/
def invalidOracle : Nat → Option (ApiErrKind × String) :=
  fun _ => some (.invalidArgument, "bad field")

/-- A deterministic stand-in for `random.choice` in witnesses. -/
def headRand : List String → String := fun l => l.headD ""

/-- A request carrying only a zone (for the retry-loop witness). -/
def zonedRequest : JVal :=
  .obj [("config", .obj [("gce_cluster_config",
    .obj [("zone_uri", .s (zoneUriStr "test-project" "us-central1-a"))])])]

/-- The cluster record the platform holds after a successful create. -/
def witnessClient : ModelCluster :=
  { state := .CREATING, httpPorts := some [("Jupyter", "https://gw.example.com/")] }

/-- The template of the key-casing claim: camelCase structural keys, an
opaque properties subtree, an opaque metadata subtree, and one scalar value
containing a colon-adjacent word. -/
def recaseTemplate : Yaml :=
  .map [("config", .map [
    ("gceClusterConfig", .map [
      ("metadata", .map [("KeepMe_CamelCase", .str "ValueUntouchedA")]),
      ("networkUri", .str "MyNet:Stuff")]),
    ("softwareConfig", .map [
      ("imageVersion", .str "1.5-debian10"),
      ("properties", .map [("spark:sparkSomeKey", .str "CamelValue")])])])]

/-- Whether a build outcome is a success. -/
def exceptOk (e : Except Err JVal) : Bool :=
  match e with
  | .ok _ => true
  | .error _ => false

/-- The payload of a successful build outcome (or `null`). -/
def okVal (e : Except Err JVal) : JVal :=
  match e with
  | .ok r => r
  | .error _ => .null

/-- The `execution_timeout` of the first initialization action. -/
def firstActionTimeout (r : JVal) : Option JVal :=
  ((initActionsOf r).get? 0).bind (fun a => aget a.asObj "execution_timeout")

/-- A form submission carrying only a zone choice. -/
def formUo : UserOptions := [("cluster_zone", some "us-west1-b")]

/-- A template loader resolving every path to `zoneTemplate`. -/
def zoneLoad : Option String → JVal := fun _ => zoneTemplate

/-- Build with a form zone over a template zone. -/
def formBuilt : JVal := okVal (_build_cluster_config witnessCfg formUo (.obj []) zoneLoad)

/-- Build with a template zone and no form. -/
def defaultBuilt : JVal := okVal (_build_cluster_config witnessCfg [] zoneTemplate noTemplate)

/-- A successful build used by several witnesses. -/
def builtExample : JVal := okVal (anacondaBuild "1.5-debian10")

/-- The duration-normalized form of `durationTemplate`. -/
def durationConverted : JVal := okVal (convert_string_to_duration durationTemplate)

/-- The pre-geo-check build over `subnetTemplate "us-east1"`. -/
def preGeoExample : JVal :=
  okVal (buildPreGeo witnessCfg [] (subnetTemplate "us-east1") noTemplate)

/-- Control-plane behavior: quota errors on the first two create attempts,
then success. -/
def retryOracle : Nat → Option (ApiErrKind × String) :=
  fun n => if n < 2 then some (.resourceExhausted, "quota exceeded") else none

/-- A first `start()` against an absent cluster under `retryOracle`. -/
def firstStartRetry : StartResult :=
  startModel witnessCfg [] (.obj []) noTemplate headRand retryOracle witnessClient none

/-- The `start()` call following `firstStartRetry`. -/
def secondStartRetry : StartResult :=
  startModel witnessCfg [] (.obj []) noTemplate headRand retryOracle witnessClient
    firstStartRetry.record

/-! # Theorems

Helper lemmas first, then one theorem (with counterexample/witness where
required) per claim. -/

theorem aget_append (l₁ l₂ : List (String × JVal)) (k : String) :
    aget (l₁ ++ l₂) k = ((aget l₁ k).orElse (fun _ => aget l₂ k)) := by
  induction l₁ with
  | nil => simp [aget]
  | cons h t ih =>
    by_cases hk : h.1 = k <;>
      simp [aget, show ((h.1, h.2) :: t : List (String × JVal)) = h :: t from rfl, hk, ih]

theorem aget_filter_self (l : List (String × JVal)) (k : String) :
    aget (l.filter (fun e => e.1 != k)) k = none := by
  induction l with
  | nil => rfl
  | cons e t ih =>
    rcases e with ⟨a, b⟩
    by_cases h1 : a = k
    · subst h1
      simpa [List.filter_cons] using ih
    · have hb : (a != k) = true := by simpa using h1
      simp [List.filter_cons, hb, aget, h1, ih]

theorem aget_filter_ne (l : List (String × JVal)) (k k' : String) (hk : k' ≠ k) :
    aget (l.filter (fun e => e.1 != k')) k = aget l k := by
  induction l with
  | nil => rfl
  | cons e t ih =>
    rcases e with ⟨a, b⟩
    by_cases h1 : a = k'
    · subst h1
      have h2 : ¬ a = k := hk
      simp [List.filter_cons, aget, h2, ih]
    · have hb : (a != k') = true := by simpa using h1
      simp only [List.filter_cons, hb]
      by_cases h2 : a = k
      · subst h2
        simp [aget, ih]
      · simp [aget, h2, ih]

theorem aget_aset_self (l : List (String × JVal)) (k : String) (v : JVal) :
    aget (aset l k v) k = some v := by
  unfold aset
  rw [aget_append, aget_filter_self]
  simp [aget]

theorem aget_aset_ne (l : List (String × JVal)) (k k' : String) (v : JVal)
    (hk : k' ≠ k) : aget (aset l k' v) k = aget l k := by
  unfold aset
  rw [aget_append, aget_filter_ne l k k' hk]
  cases h : aget l k <;> simp [aget, hk]

theorem aget_apop_self (l : List (String × JVal)) (k : String) :
    aget (apop l k) k = none := aget_filter_self l k

theorem aget_apop_ne (l : List (String × JVal)) (k k' : String) (hk : k' ≠ k) :
    aget (apop l k') k = aget l k := aget_filter_ne l k k' hk

theorem aget_asetdefault_ne (l : List (String × JVal)) (k k' : String) (v : JVal)
    (hk : k' ≠ k) : aget (asetdefault l k' v) k = aget l k := by
  unfold asetdefault
  cases h : aget l k' with
  | some w => rfl
  | none =>
    rw [aget_append]
    cases h2 : aget l k <;> simp [aget, hk]

theorem aget_asetdefault_self (l : List (String × JVal)) (k : String) (v : JVal) :
    aget (asetdefault l k v) k = some ((aget l k).getD v) := by
  unfold asetdefault
  cases h : aget l k with
  | some w => simp [h]
  | none =>
    rw [aget_append, h]
    simp [aget]

/-- Integer form of the rational ceiling used by `progressStep`. -/
theorem ceil_div_four (x : ℤ) : ⌈(x : ℚ) / 4⌉ = -(Int.ediv (-x) 4) := by
  have h0 : 4 * Int.ediv (-x) 4 + Int.emod (-x) 4 = -x := Int.ediv_add_emod (-x) 4
  have hm0 : 0 ≤ Int.emod (-x) 4 := Int.emod_nonneg (-x) (by norm_num)
  have hm1 : Int.emod (-x) 4 < 4 := Int.emod_lt_of_pos (-x) (by norm_num)
  set e := Int.ediv (-x) 4 with he
  rw [Int.ceil_eq_iff]
  constructor
  · rw [lt_div_iff₀ (show (0 : ℚ) < 4 by norm_num)]
    have h : (-e - 1) * 4 < x := by omega
    push_cast
    exact_mod_cast h
  · rw [div_le_iff₀ (show (0 : ℚ) < 4 by norm_num)]
    have h : x ≤ -e * 4 := by omega
    push_cast
    exact_mod_cast h

/-- The integer expression in `progressStep` is exactly
`math.ceil((90 - bar) / 4)` over the rationals. -/
theorem progressStep_eq_ceil (bar : ℤ) :
    progressStep bar = bar + ⌈(90 - (bar : ℚ)) / 4⌉ := by
  have h := ceil_div_four (90 - bar)
  rw [show ((90 - bar : ℤ) : ℚ) = 90 - (bar : ℚ) by push_cast; ring] at h
  rw [progressStep, h]
  have : -(90 - bar) = bar - 90 := by ring
  rw [this]

theorem aget_aset (l : List (String × JVal)) (k k' : String) (v : JVal) :
    aget (aset l k' v) k = if k' = k then some v else aget l k := by
  by_cases hk : k' = k
  · subst hk
    simp [aget_aset_self]
  · simp [aget_aset_ne l k k' v hk, hk]

theorem aget_asetdefault (l : List (String × JVal)) (k k' : String) (v : JVal) :
    aget (asetdefault l k' v) k =
      if k' = k then some ((aget l k).getD v) else aget l k := by
  by_cases hk : k' = k
  · subst hk
    simp [aget_asetdefault_self]
  · simp [aget_asetdefault_ne l k k' v hk, hk]

theorem aget_apop (l : List (String × JVal)) (k k' : String) :
    aget (apop l k') k = if k' = k then none else aget l k := by
  by_cases hk : k' = k
  · subst hk
    simp [aget_apop_self]
  · simp [aget_apop_ne l k k' hk, hk]

theorem aget_ite (c : Prop) [Decidable c] (a b : List (String × JVal)) (k : String) :
    aget (if c then a else b) k = if c then aget a k else aget b k :=
  apply_ite (fun l => aget l k) c a b

theorem countKey_aset_self (l : List (String × JVal)) (k : String) (v : JVal) :
    countKey (aset l k v) k = 1 := by
  unfold countKey aset
  rw [List.filter_append, List.filter_filter]
  have h1 : ∀ e : String × JVal, (decide (e.1 = k) && decide (¬ e.1 = k)) = false := by
    intro e
    by_cases he : e.1 = k <;> simp [he]
  simp [h1]

theorem progressStep_bounds (bar : ℤ) (h : bar ≤ 90) :
    bar ≤ progressStep bar ∧ progressStep bar ≤ 90 ∧
      (bar < 90 → bar < progressStep bar) := by
  have h0 : 4 * Int.ediv (bar - 90) 4 + Int.emod (bar - 90) 4 = bar - 90 :=
    Int.ediv_add_emod (bar - 90) 4
  have hm0 : 0 ≤ Int.emod (bar - 90) 4 := Int.emod_nonneg _ (by norm_num)
  have hm1 : Int.emod (bar - 90) 4 < 4 := Int.emod_lt_of_pos _ (by norm_num)
  unfold progressStep
  omega

theorem mapM_ok_get {α β : Type} (f : α → Except Err β) (l : List α) (l' : List β)
    (h : l.mapM f = .ok l') :
    ∀ i a, l.get? i = some a → ∃ b, l'.get? i = some b ∧ f a = .ok b := by
  induction l generalizing l' with
  | nil =>
    intro i a ha
    simp [List.get?] at ha
  | cons x t ih =>
    rw [List.mapM_cons] at h
    simp only [bind, Except.bind, pure, Except.pure] at h
    cases hx : f x with
    | error e => rw [hx] at h; exact absurd h (by simp)
    | ok b =>
      rw [hx] at h
      cases ht : t.mapM f with
      | error e => rw [ht] at h; exact absurd h (by simp)
      | ok bs =>
        rw [ht] at h
        have hl' : l' = b :: bs := by
          cases h
          rfl
        subst hl'
        intro i a ha
        cases i with
        | zero =>
          rw [List.get?_cons_zero] at ha
          injection ha with ha'
          subst ha'
          exact ⟨b, rfl, hx⟩
        | succ j =>
          rw [List.get?_cons_succ] at ha
          obtain ⟨b2, hb2, hf⟩ := ih bs ht j a ha
          exact ⟨b2, by rw [List.get?_cons_succ]; exact hb2, hf⟩

/-! ## C10 — bare-digit duration strings lose their last digit -/

/-- C10 (counterexample to the universally quantified reading): on the
single-digit all-digit string `"5"` the unit conversion does not return the
integer value of the truncated string — `int('')` raises `ValueError`. -/
theorem to_sec_single_digit_raises :
    to_sec "5" = .error .valueError ∧ ("5".toList.all Char.isDigit) = true :=
  ⟨rfl, by decide⟩

/-- C10 (amended): for every duration string of two or more characters
consisting only of digits, the unit conversion unconditionally consumes the
final digit as the time unit and returns the integer value of the string
with its last character removed (`"600"` becomes `60` seconds); a
single-digit string instead raises `ValueError` because `int('')` fails. -/
theorem to_sec_digits_drop_last (str : String) (n : Int)
    (hd : str.toList.all Char.isDigit = true) (hlen : 2 ≤ str.toList.length)
    (hp : pyInt (String.mk str.toList.dropLast) = some n) :
    to_sec str = .ok (.i n) := by
  have hne : str.toList ≠ [] := by
    intro hl
    rw [hl] at hlen
    simp at hlen
  have hnz : (str != "") = true := by
    have : str ≠ "" := by
      intro hs
      subst hs
      simp at hne
    simpa using this
  have hmem : str.toList.getLast hne ∈ str.toList := List.getLast_mem hne
  have hcd : (str.toList.getLast hne).isDigit = true := by
    have hall := List.all_eq_true.mp hd
    simpa using hall _ hmem
  have hgl : str.toList.getLastD 'x' = str.toList.getLast hne := by
    rw [List.getLastD_eq_getLast?, List.getLast?_eq_getLast _ hne]
    rfl
  have hm : str.toList.getLast hne ≠ 'm' := by
    intro hx
    rw [hx] at hcd
    simp [Char.isDigit] at hcd
  have hh : str.toList.getLast hne ≠ 'h' := by
    intro hx
    rw [hx] at hcd
    simp [Char.isDigit] at hcd
  have hdd : str.toList.getLast hne ≠ 'd' := by
    intro hx
    rw [hx] at hcd
    simp [Char.isDigit] at hcd
  unfold to_sec
  rw [if_pos hnz]
  simp only [hp, hgl, if_neg hm, if_neg hh, if_neg hdd]

/-- C10 witness: `"600"` normalizes to 60 seconds, not 600. -/
theorem to_sec_digits_drop_last_witness : to_sec "600" = .ok (.i 60) :=
  to_sec_digits_drop_last "600" 60 (by decide) (by decide) (by decide)

/-! ## C8 — log-driven progress steps -/

/-- C8 (counterexample): from percentage 89 (which is below 90), a single
previously-unseen log entry advances the bar to exactly 90 —
`89 + ceil((90 - 89) / 4) = 90` — so the log-driven increments do reach 90. -/
theorem progress_reaches_ninety :
    (processLogEntries ⟨89, [], []⟩ [("entry-1", "msg")]).bar = 90 ∧ (89 : ℤ) < 90 :=
  ⟨by decide, by decide⟩

/-- C8 (amended): each previously-unseen log entry advances the bar by
`ceil((90 - current) / 4)`; starting at or below 90 the sequence is
monotonically non-decreasing, never exceeds 90, and each step from a
percentage strictly below 90 strictly increases it (reaching exactly 90 is
possible, e.g. from 89). -/
theorem processLogEntries_monotone (st : ProgressorState)
    (entries : List (String × String)) (h : st.bar ≤ 90) :
    st.bar ≤ (processLogEntries st entries).bar ∧
      (processLogEntries st entries).bar ≤ 90 ∧
      (∀ bar : ℤ, bar < 90 → bar < progressStep bar) := by
  refine ⟨?_, ?_, fun bar hb => (progressStep_bounds bar (le_of_lt hb)).2.2 hb⟩
  · induction entries generalizing st with
    | nil => exact le_refl _
    | cons e t ih =>
      show st.bar ≤ (processLogEntries _ t).bar
      by_cases he : e.1 ∈ st.logging
      · simpa [processLogEntries, he] using ih st h
      · have hb := progressStep_bounds st.bar h
        calc st.bar ≤ progressStep st.bar := hb.1
          _ ≤ _ := by
            simpa [processLogEntries, he] using
              ih { bar := progressStep st.bar, logging := e.1 :: st.logging,
                   yields := st.yields ++ [(progressStep st.bar, e.2)] } hb.2.1
  · induction entries generalizing st with
    | nil => exact h
    | cons e t ih =>
      by_cases he : e.1 ∈ st.logging
      · simpa [processLogEntries, he] using ih st h
      · have hb := progressStep_bounds st.bar h
        simpa [processLogEntries, he] using
          ih { bar := progressStep st.bar, logging := e.1 :: st.logging,
               yields := st.yields ++ [(progressStep st.bar, e.2)] } hb.2.1

/-- C8 witness: the monotone bounds hold on a concrete run from 5 with two
fresh entries. -/
theorem processLogEntries_monotone_witness :
    (5 : ℤ) ≤ (processLogEntries ⟨5, [], []⟩ [("a", "x"), ("b", "y")]).bar ∧
      (processLogEntries ⟨5, [], []⟩ [("a", "x"), ("b", "y")]).bar ≤ 90 ∧
      (∀ bar : ℤ, bar < 90 → bar < progressStep bar) :=
  processLogEntries_monotone ⟨5, [], []⟩ [("a", "x"), ("b", "y")] (by decide)

/-! ## C4 — Anaconda gating by image version -/

/-- C4 (counterexample): with the Jupyter component force-added, the image
version `"2.0.0-RC5"` does NOT yield ANACONDA in the built optional
components (the claim says it should): `len("2.0.0-RC5".split('-')) < 3`
returns unsupported before the RC-number check is reached. -/
theorem anaconda_rc5_absent :
    buildHasAnaconda "2.0.0-RC5" = false ∧
      exceptOk (anacondaBuild "2.0.0-RC5") = true ∧
      _image_version_supports_anaconda "2.0.0-RC5" = false :=
  ⟨by decide, by decide, by decide⟩

/-- C4 (amended): when the Jupyter component is force-added, the built
optional-components set contains ANACONDA exactly when
`_image_version_supports_anaconda` accepts the resolved image version:
present for `"1.5-debian10"`, absent for `"2.0.0"`, absent for
`"2.0.0-RC5"` (fewer than three dash-separated parts), and present for the
full form `"2.0.0-RC5-debian10"` (pre-RC12 preview cutover). -/
theorem anaconda_gating :
    buildHasAnaconda "1.5-debian10" = true ∧
      buildHasAnaconda "2.0.0" = false ∧
      buildHasAnaconda "2.0.0-RC5" = false ∧
      buildHasAnaconda "2.0.0-RC5-debian10" = true ∧
      exceptOk (anacondaBuild "1.5-debian10") = true ∧
      exceptOk (anacondaBuild "2.0.0") = true ∧
      exceptOk (anacondaBuild "2.0.0-RC5") = true ∧
      exceptOk (anacondaBuild "2.0.0-RC5-debian10") = true := by
  refine ⟨by decide, by decide, by decide, by decide, by decide, by decide, by decide, by decide⟩

/-! ## C9 — selective key-casing transform -/

/-- C9 (counterexample): the transform does not leave non-key content
unchanged — the scalar value `MyNet:Stuff` (outside both opaque subtrees)
is rewritten to `my_net:Stuff` because the regexes run over the serialized
YAML text. -/
theorem recase_value_mangled :
    ymPath ["config", "gce_cluster_config", "network_uri"]
        (get_cluster_definition_transform recaseTemplate) =
      some (.str "my_net:Stuff") ∧
    ymPath ["config", "gceClusterConfig", "networkUri"] recaseTemplate =
      some (.str "MyNet:Stuff") ∧
    ("my_net:Stuff" : String) ≠ "MyNet:Stuff" :=
  ⟨rfl, rfl, by decide⟩

/-- C9 (amended): the transform rewrites structural camelCase keys to
snake_case and splices the software-properties and instance-metadata
subtrees back byte-for-byte, but the rest of the configuration is not left
unchanged: a scalar value matching the key-like text patterns (a word
directly before a colon, or a lowercase-uppercase transition with a colon
later on its line) is rewritten as if it were a key. -/
theorem recase_selective :
    ymPath ["config", "software_config", "properties"]
        (get_cluster_definition_transform recaseTemplate) =
      ymPath ["config", "softwareConfig", "properties"] recaseTemplate ∧
    ymPath ["config", "gce_cluster_config", "metadata"]
        (get_cluster_definition_transform recaseTemplate) =
      ymPath ["config", "gceClusterConfig", "metadata"] recaseTemplate ∧
    ymPath ["config", "software_config", "image_version"]
        (get_cluster_definition_transform recaseTemplate) =
      some (.str "1.5-debian10") ∧
    ymPath ["config", "gceClusterConfig"]
        (get_cluster_definition_transform recaseTemplate) = none ∧
    ymPath ["config", "gce_cluster_config", "network_uri"]
        (get_cluster_definition_transform recaseTemplate) =
      some (.str "my_net:Stuff") :=
  ⟨rfl, rfl, rfl, rfl, rfl⟩

/-! ## C5 — zone-retry bounds of cluster creation -/

theorem _create_cluster_invalid (cfg : SpawnerCfg) (rand : List String → String)
    (oracle : Nat → Option (ApiErrKind × String)) (cd : JVal) (t a : Nat) (m : String)
    (h : oracle a = some (.invalidArgument, m)) :
    _create_cluster cfg rand oracle cd t a = ([cd], .error (.http m)) := by
  match t with
  | 0 => simp [_create_cluster, attemptOutcome, h]
  | 1 => simp [_create_cluster, attemptOutcome, h]
  | t + 2 => simp [_create_cluster, h]

theorem _create_cluster_retry_step (cfg : SpawnerCfg) (rand : List String → String)
    (oracle : Nat → Option (ApiErrKind × String)) (cd : JVal) (t a : Nat)
    (k : ApiErrKind) (m : String)
    (h : oracle a = some (k, m)) (hk : k ≠ .invalidArgument) :
    _create_cluster cfg rand oracle cd (t + 2) a =
      (cd :: (_create_cluster cfg rand oracle
          (change_zone_in_cluster_cfg cfg rand cd) (t + 1) (a + 1)).1,
        (_create_cluster cfg rand oracle
          (change_zone_in_cluster_cfg cfg rand cd) (t + 1) (a + 1)).2) := by
  simp [_create_cluster, h, hk]

theorem _create_cluster_last (cfg : SpawnerCfg) (rand : List String → String)
    (oracle : Nat → Option (ApiErrKind × String)) (cd : JVal) (a : Nat)
    (k : ApiErrKind) (m : String)
    (h : oracle a = some (k, m)) (hk : k ≠ .invalidArgument) :
    _create_cluster cfg rand oracle cd 1 a = ([cd], .error (.api k m)) := by
  simp [_create_cluster, attemptOutcome, h, hk]

/-- C5: when every `create_cluster` attempt fails with a
quota/permission/rate-limit class error, the retry loop with its default
budget of 3 issues exactly three client calls — the request of each retry
being the previous one with its zone changed — and re-raises the third
failure; a semantic `InvalidArgument` error is never retried: the loop stops
after one call with the HTTP 500 that `_raise_exception` built from it. -/
theorem create_cluster_retry_bounds (cfg : SpawnerCfg) (rand : List String → String)
    (cd : JVal) (oracleQ oracleI : Nat → Option (ApiErrKind × String))
    (k : ApiErrKind) (m mI : String)
    (hq : ∀ j, ∃ km, oracleQ j = some km ∧ km.1 ≠ ApiErrKind.invalidArgument)
    (h2 : oracleQ 2 = some (k, m))
    (hI : oracleI 0 = some (.invalidArgument, mI)) :
    ((_create_cluster cfg rand oracleQ cd 3 0).1 =
        [cd, change_zone_in_cluster_cfg cfg rand cd,
          change_zone_in_cluster_cfg cfg rand (change_zone_in_cluster_cfg cfg rand cd)] ∧
      (_create_cluster cfg rand oracleQ cd 3 0).2 = .error (.api k m)) ∧
    (_create_cluster cfg rand oracleI cd 3 0 = ([cd], .error (.http mI))) := by
  obtain ⟨km0, h0, hk0⟩ := hq 0
  obtain ⟨km1, h1, hk1⟩ := hq 1
  obtain ⟨km2, h2', hk2⟩ := hq 2
  have hkm2 : km2 = (k, m) := by
    rw [h2] at h2'
    exact (Option.some.inj h2').symm
  have hkk : k ≠ ApiErrKind.invalidArgument := by
    rw [hkm2] at hk2
    simpa using hk2
  have e0 := _create_cluster_retry_step cfg rand oracleQ cd 1 0 km0.1 km0.2
    (by rw [h0]) hk0
  have e1 := _create_cluster_retry_step cfg rand oracleQ
    (change_zone_in_cluster_cfg cfg rand cd) 0 1 km1.1 km1.2 (by rw [h1]) hk1
  have e2 := _create_cluster_last cfg rand oracleQ
    (change_zone_in_cluster_cfg cfg rand (change_zone_in_cluster_cfg cfg rand cd)) 2
    k m h2 hkk
  refine ⟨?_, _create_cluster_invalid cfg rand oracleI cd 3 0 mI hI⟩
  norm_num at e0 e1
  rw [e0, e1, e2]
  exact ⟨rfl, rfl⟩

/-- C5 witness: three quota failures on a concrete request, and an immediate
invalid-argument propagation. -/
theorem create_cluster_retry_bounds_witness :
    ((_create_cluster witnessCfg headRand quotaOracle zonedRequest 3 0).1 =
        [zonedRequest, change_zone_in_cluster_cfg witnessCfg headRand zonedRequest,
          change_zone_in_cluster_cfg witnessCfg headRand
            (change_zone_in_cluster_cfg witnessCfg headRand zonedRequest)] ∧
      (_create_cluster witnessCfg headRand quotaOracle zonedRequest 3 0).2 =
        .error (.api .resourceExhausted "quota exceeded")) ∧
    (_create_cluster witnessCfg headRand invalidOracle zonedRequest 3 0 =
      ([zonedRequest], .error (.http "bad field"))) :=
  create_cluster_retry_bounds witnessCfg headRand zonedRequest quotaOracle invalidOracle
    .resourceExhausted "quota exceeded" "bad field"
    (fun _ => ⟨(.resourceExhausted, "quota exceeded"), rfl, by decide⟩) rfl rfl

/-! ## C2 — idempotent start -/

theorem create_calls_budget (cfg : SpawnerCfg) (rand : List String → String)
    (oracle : Nat → Option (ApiErrKind × String)) :
    ∀ (t : Nat) (cd : JVal) (a : Nat),
      (_create_cluster cfg rand oracle cd (t + 1) a).1.length ≤ t + 1 := by
  intro t
  induction t with
  | zero =>
    intro cd a
    show (_create_cluster cfg rand oracle cd 1 a).1.length ≤ 1
    rcases ho : oracle a with _ | km
    · simp [_create_cluster, attemptOutcome, ho]
    · by_cases hk : km.1 = ApiErrKind.invalidArgument
      · simp [_create_cluster, attemptOutcome, ho, hk]
      · simp [_create_cluster, attemptOutcome, ho, hk]
  | succ t ih =>
    intro cd a
    show (_create_cluster cfg rand oracle cd (t + 2) a).1.length ≤ t + 2
    rcases ho : oracle a with _ | km
    · simp [_create_cluster, ho]
    · rcases km with ⟨k, m⟩
      by_cases hk : k = ApiErrKind.invalidArgument
      · rw [_create_cluster_invalid cfg rand oracle cd (t + 2) a m
          (by rw [ho, hk])]
        simp
      · rw [_create_cluster_retry_step cfg rand oracle cd t a k m ho hk]
        simp only [List.length_cons]
        have := ih (change_zone_in_cluster_cfg cfg rand cd) (a + 1)
        omega

theorem startModel_creates_bound (cfg : SpawnerCfg) (uo : UserOptions)
    (cluster_data : JVal) (loadDef : Option String → JVal)
    (rand : List String → String) (oracle : Nat → Option (ApiErrKind × String))
    (client : ModelCluster) (s0 : Option ModelCluster) :
    (startModel cfg uo cluster_data loadDef rand oracle client s0).creates ≤ 3 ∧
    (oracle 0 = none →
      (startModel cfg uo cluster_data loadDef rand oracle client s0).creates ≤ 1) := by
  have hlen3 : (create_cluster_calls cfg uo cluster_data loadDef rand oracle).1.length
      ≤ 3 := by
    unfold create_cluster_calls
    split
    · simp
    · exact create_calls_budget cfg rand oracle 2 _ 0
  have hlen1 : oracle 0 = none →
      (create_cluster_calls cfg uo cluster_data loadDef rand oracle).1.length ≤ 1 := by
    intro h0
    unfold create_cluster_calls
    split
    · simp
    · show (_create_cluster cfg rand oracle _ 3 0).1.length ≤ 1
      simp [_create_cluster, h0]
  unfold startModel
  by_cases hp0 : cfg.project = ""
  · rw [if_pos hp0]
    exact ⟨Nat.zero_le 3, fun _ => Nat.zero_le 1⟩
  rw [if_neg hp0]
  by_cases hdel : get_cluster_status s0 = some ClusterState.DELETING
  · rw [if_pos hdel]
    exact ⟨Nat.zero_le 3, fun _ => Nat.zero_le 1⟩
  rw [if_neg hdel]
  rcases hcc : create_cluster_calls cfg uo cluster_data loadDef rand oracle with ⟨l, e⟩
  rw [hcc] at hlen3 hlen1
  by_cases hex : cluster_exists s0 = true
  · rw [if_pos hex, if_pos hex]
    cases hept : get_cluster_notebook_endpoint cfg.default_url s0 <;> simp [hept]
  · rw [if_neg hex, if_neg hex]
    cases e with
    | error e =>
      exact ⟨by simpa using hlen3, fun h0 => by simpa using hlen1 h0⟩
    | ok u =>
      cases hept : get_cluster_notebook_endpoint cfg.default_url (some client) with
      | ok url =>
        exact ⟨by simpa [hept] using hlen3, fun h0 => by simpa [hept] using hlen1 h0⟩
      | error e2 =>
        exact ⟨by simpa [hept] using hlen3, fun h0 => by simpa [hept] using hlen1 h0⟩

/-- C2 (counterexample): under quota errors on the first two attempts, the
first `start()` alone issues three `create_cluster` calls to the
control-plane client (the retry loop changes the zone and re-submits), its
creation then succeeds with the gateway endpoint resolved, and the second
`start()` issues none — so two successive `start()` calls issue three client
creates, not at most one. -/
theorem start_retry_exceeds_one :
    firstStartRetry.creates = 3 ∧
    firstStartRetry.result = .ok "https://gw.example.com" ∧
    secondStartRetry.creates = 0 ∧
    ¬ (firstStartRetry.creates + secondStartRetry.creates ≤ 1) :=
  ⟨rfl, rfl, rfl, by decide⟩

/-- C2 (amended): the second of two successive `start()` calls issues no
client `create_cluster` call — when after the first call the control plane
holds the cluster in a non-deleting state with a resolvable gateway
endpoint, the second call creates nothing, does not error, and returns the
existing cluster's endpoint; within one `start()` the retry loop bounds the
client create calls by three, and by one when the control plane accepts the
first attempt. -/
theorem start_idempotent (cfg : SpawnerCfg) (uo : UserOptions) (cluster_data : JVal)
    (loadDef : Option String → JVal) (rand : List String → String)
    (oracle : Nat → Option (ApiErrKind × String)) (client : ModelCluster)
    (s0 : Option ModelCluster) (c : ModelCluster) (url : String)
    (hp : cfg.project ≠ "")
    (hc : (startModel cfg uo cluster_data loadDef rand oracle client s0).record =
      some c)
    (hcd : c.state ≠ .DELETING)
    (hurl : get_cluster_notebook_endpoint cfg.default_url (some c) = .ok url) :
    (startModel cfg uo cluster_data loadDef rand oracle client
        (startModel cfg uo cluster_data loadDef rand oracle client s0).record).creates
      = 0 ∧
    (startModel cfg uo cluster_data loadDef rand oracle client
        (startModel cfg uo cluster_data loadDef rand oracle client s0).record).result
      = .ok url ∧
    (startModel cfg uo cluster_data loadDef rand oracle client s0).creates ≤ 3 ∧
    (oracle 0 = none →
      (startModel cfg uo cluster_data loadDef rand oracle client s0).creates ≤ 1) := by
  have hb := startModel_creates_bound cfg uo cluster_data loadDef rand oracle client s0
  have hsecond : startModel cfg uo cluster_data loadDef rand oracle client (some c) =
      ⟨some c, 0, .ok url⟩ := by
    unfold startModel
    rw [if_neg hp]
    have hst : ¬ (get_cluster_status (some c) = some ClusterState.DELETING) := by
      simp [get_cluster_status]
      intro hx
      exact absurd hx hcd
    rw [if_neg hst, if_pos (show cluster_exists (some c) = true from rfl),
      if_pos (show cluster_exists (some c) = true from rfl)]
    simp [hurl]
  rw [hc, hsecond]
  exact ⟨rfl, rfl, hb.1, hb.2⟩

/-- C2 witness: under `retryOracle` the first start creates and succeeds;
the second call sees the created record, creates nothing, and resolves the
gateway endpoint; the per-start bounds hold. -/
theorem start_idempotent_witness :
    secondStartRetry.creates = 0 ∧
    secondStartRetry.result = .ok "https://gw.example.com" ∧
    firstStartRetry.creates ≤ 3 ∧
    (retryOracle 0 = none → firstStartRetry.creates ≤ 1) :=
  start_idempotent witnessCfg [] (.obj []) noTemplate headRand retryOracle
    witnessClient none witnessClient "https://gw.example.com" (by decide) rfl
    (by decide) rfl

/-! ## C6 — duration normalization -/

theorem convLifecycleKey_nonstr (lc : List (String × JVal)) (k : String) (v : JVal)
    (hv : aget lc k = some v) (hs : v.isStr = false) :
    convLifecycleKey lc k = .ok lc := by
  cases v with
  | s t => simp [JVal.isStr] at hs
  | null => simp [convLifecycleKey, hv]
  | b bv => simp [convLifecycleKey, hv]
  | i iv => simp [convLifecycleKey, hv]
  | arr av => simp [convLifecycleKey, hv]
  | obj ov => simp [convLifecycleKey, hv]

theorem convLifecycleKey_ne (lc lc2 : List (String × JVal)) (k k' : String)
    (h : convLifecycleKey lc k = .ok lc2) (hk : k ≠ k') :
    aget lc2 k' = aget lc k' := by
  unfold convLifecycleKey at h
  rcases hlk : aget lc k with _ | v
  · rw [hlk] at h
    injection h with h
    rw [← h]
  · rw [hlk] at h
    cases v with
    | s t =>
      simp only [bind, Except.bind] at h
      cases hts : to_sec t with
      | error e => rw [hts] at h; exact absurd h (by simp)
      | ok secs =>
        rw [hts] at h
        simp only [pure, Except.pure] at h
        injection h with h
        rw [← h, aget_aset_ne lc k' k _ hk]
    | null => injection h with h; rw [← h]
    | b bv => injection h with h; rw [← h]
    | i iv => injection h with h; rw [← h]
    | arr av => injection h with h; rw [← h]
    | obj ov => injection h with h; rw [← h]

theorem convInitAction_cases (a b : JVal) (h : convInitAction a = .ok b) :
    (aget a.asObj "execution_timeout" = some (.s "10m") →
      aget b.asObj "execution_timeout" =
        some (.obj [("seconds", .i 600), ("nanos", .i 0)])) ∧
    (∀ v, aget a.asObj "execution_timeout" = some v → v.isStr = false → b = a) := by
  cases a with
  | obj fields =>
    rcases hft : aget fields "execution_timeout" with _ | v
    · have hc : convInitAction (.obj fields) = .ok (.obj fields) := by
        simp [convInitAction, hft]
      rw [hc] at h
      injection h with h
      subst h
      refine ⟨?_, fun _ _ _ => rfl⟩
      intro hx
      rw [show (JVal.obj fields).asObj = fields from rfl, hft] at hx
      exact absurd hx (by simp)
    · cases v with
      | s t =>
        cases hts : to_sec t with
        | error e =>
          have hc : convInitAction (.obj fields) = .error e := by
            simp [convInitAction, hft, hts, bind, Except.bind]
          rw [hc] at h
          exact absurd h (by simp)
        | ok secs =>
          have hc : convInitAction (.obj fields) = .ok (.obj (aset fields
              "execution_timeout" (.obj [("seconds", secs), ("nanos", .i 0)]))) := by
            simp [convInitAction, hft, hts, bind, Except.bind, pure, Except.pure]
          rw [hc] at h
          injection h with h
          subst h
          constructor
          · intro hx
            rw [show (JVal.obj fields).asObj = fields from rfl, hft] at hx
            injection hx with hx
            injection hx with hx
            subst hx
            have h600 : secs = .i 600 := by
              have h10 : to_sec "10m" = .ok (.i 600) := rfl
              rw [h10] at hts
              injection hts with hts
              rw [hts]
            rw [h600]
            exact aget_aset_self fields "execution_timeout" _
          · intro v hx hs
            rw [show (JVal.obj fields).asObj = fields from rfl, hft] at hx
            injection hx with hx
            rw [← hx] at hs
            simp [JVal.isStr] at hs
      | null =>
        have hc : convInitAction (.obj fields) = .ok (.obj fields) := by
          simp [convInitAction, hft]
        rw [hc] at h
        injection h with h
        subst h
        exact ⟨fun hx => by rw [show (JVal.obj fields).asObj = fields from rfl, hft] at hx; exact absurd hx (by simp), fun _ _ _ => rfl⟩
      | b bv =>
        have hc : convInitAction (.obj fields) = .ok (.obj fields) := by
          simp [convInitAction, hft]
        rw [hc] at h
        injection h with h
        subst h
        exact ⟨fun hx => by rw [show (JVal.obj fields).asObj = fields from rfl, hft] at hx; exact absurd hx (by simp), fun _ _ _ => rfl⟩
      | i iv =>
        have hc : convInitAction (.obj fields) = .ok (.obj fields) := by
          simp [convInitAction, hft]
        rw [hc] at h
        injection h with h
        subst h
        exact ⟨fun hx => by rw [show (JVal.obj fields).asObj = fields from rfl, hft] at hx; exact absurd hx (by simp), fun _ _ _ => rfl⟩
      | arr av =>
        have hc : convInitAction (.obj fields) = .ok (.obj fields) := by
          simp [convInitAction, hft]
        rw [hc] at h
        injection h with h
        subst h
        exact ⟨fun hx => by rw [show (JVal.obj fields).asObj = fields from rfl, hft] at hx; exact absurd hx (by simp), fun _ _ _ => rfl⟩
      | obj ov =>
        have hc : convInitAction (.obj fields) = .ok (.obj fields) := by
          simp [convInitAction, hft]
        rw [hc] at h
        injection h with h
        subst h
        exact ⟨fun hx => by rw [show (JVal.obj fields).asObj = fields from rfl, hft] at hx; exact absurd hx (by simp), fun _ _ _ => rfl⟩
  | null =>
    rw [show convInitAction .null = .ok .null from rfl] at h
    injection h with h
    subst h
    exact ⟨fun hx => absurd hx (by simp [JVal.asObj, aget]), fun _ _ _ => rfl⟩
  | s sv =>
    rw [show convInitAction (.s sv) = .ok (.s sv) from rfl] at h
    injection h with h
    subst h
    exact ⟨fun hx => absurd hx (by simp [JVal.asObj, aget]), fun _ _ _ => rfl⟩
  | b bv =>
    rw [show convInitAction (.b bv) = .ok (.b bv) from rfl] at h
    injection h with h
    subst h
    exact ⟨fun hx => absurd hx (by simp [JVal.asObj, aget]), fun _ _ _ => rfl⟩
  | i iv =>
    rw [show convInitAction (.i iv) = .ok (.i iv) from rfl] at h
    injection h with h
    subst h
    exact ⟨fun hx => absurd hx (by simp [JVal.asObj, aget]), fun _ _ _ => rfl⟩
  | arr av =>
    rw [show convInitAction (.arr av) = .ok (.arr av) from rfl] at h
    injection h with h
    subst h
    exact ⟨fun hx => absurd hx (by simp [JVal.asObj, aget]), fun _ _ _ => rfl⟩

/-- C6: the duration normalization maps a string `execution_timeout`
`"10m"` of an initialization action to the structured
`{seconds: 600, nanos: 0}`, and leaves any `execution_timeout`,
`idle_delete_ttl` or `auto_delete_ttl` value already in structured
(non-string) form unchanged. -/
theorem convert_duration_spec (d d' : JVal)
    (h : convert_string_to_duration d = .ok d') :
    (∀ i a, (initActionsOf d).get? i = some a →
      ∃ b, (initActionsOf d').get? i = some b ∧
        (aget a.asObj "execution_timeout" = some (.s "10m") →
          aget b.asObj "execution_timeout" =
            some (.obj [("seconds", .i 600), ("nanos", .i 0)])) ∧
        (∀ v, aget a.asObj "execution_timeout" = some v → v.isStr = false → b = a)) ∧
    (∀ v, aget (lifecycleOf d) "idle_delete_ttl" = some v → v.isStr = false →
      aget (lifecycleOf d') "idle_delete_ttl" = some v) ∧
    (∀ v, aget (lifecycleOf d) "auto_delete_ttl" = some v → v.isStr = false →
      aget (lifecycleOf d') "auto_delete_ttl" = some v) := by
  unfold convert_string_to_duration at h
  simp only [bind, Except.bind, pure, Except.pure] at h
  split at h
  · exact absurd h (by simp)
  rename_i converted hm
  split at h
  · exact absurd h (by simp)
  rename_i lc1 h1
  split at h
  · exact absurd h (by simp)
  rename_i lc2 h2
  injection h with h
  subst h
  -- names for the intermediate configs
  set config0 := agetObj d.asObj "config" with hconfig0
  set config1 := asetdefault config0 "initialization_actions" (.arr []) with hconfig1
  set actions := ((aget config1 "initialization_actions").getD (.arr [])).asArr
    with hactions
  set config2 := if actions.isEmpty then config1
    else aset config1 "initialization_actions" (.arr converted) with hconfig2
  set config3 := asetdefault config2 "lifecycle_config" (.obj []) with hconfig3
  -- the actions list read by the conversion is the one of `d`
  have hact_eq : actions = initActionsOf d := by
    rw [hactions, hconfig1]
    unfold initActionsOf cfgOf agetArr
    rw [aget_asetdefault]
    simp only [if_pos rfl]
    cases cases0 : aget config0 "initialization_actions" <;> simp [JVal.asArr]
  -- the lifecycle mapping read by the conversion is the one of `d`
  have hlc_eq : agetObj config3 "lifecycle_config" = lifecycleOf d := by
    have hc2 : aget config2 "lifecycle_config" = aget config0 "lifecycle_config" := by
      rw [hconfig2, aget_ite]
      rw [aget_aset_ne _ _ _ _ (by decide), hconfig1,
        aget_asetdefault_ne _ _ _ _ (by decide)]
      simp
    show ((aget config3 "lifecycle_config").getD (.obj [])).asObj =
      ((aget config0 "lifecycle_config").getD (.obj [])).asObj
    rw [hconfig3, aget_asetdefault_self, Option.getD_some, hc2]
  -- the final tree
  have hcfg' : cfgOf (.obj (aset d.asObj "config"
      (.obj (aset config3 "lifecycle_config" (.obj lc2))))) =
      aset config3 "lifecycle_config" (.obj lc2) := by
    unfold cfgOf agetObj
    rw [show (JVal.obj (aset d.asObj "config" (.obj (aset config3 "lifecycle_config"
      (.obj lc2))))).asObj = aset d.asObj "config" (.obj (aset config3
      "lifecycle_config" (.obj lc2))) from rfl]
    rw [aget_aset_self]
    rfl
  refine ⟨?_, ?_, ?_⟩
  · intro i a ha
    rw [← hact_eq] at ha
    have hne : actions.isEmpty = false := by
      cases hae : actions with
      | nil => rw [hae] at ha; simp [List.get?] at ha
      | cons x t => rfl
    have hia' : initActionsOf (.obj (aset d.asObj "config"
        (.obj (aset config3 "lifecycle_config" (.obj lc2))))) = converted := by
      unfold initActionsOf agetArr
      rw [hcfg']
      rw [aget_aset_ne _ _ _ _ (by decide), hconfig3,
        aget_asetdefault_ne _ _ _ _ (by decide), hconfig2]
      rw [aget_ite, hne]
      simp only [Bool.false_eq_true, if_false]
      rw [aget_aset_self]
      simp [JVal.asArr]
    rw [hia']
    obtain ⟨b, hb, hfa⟩ := mapM_ok_get convInitAction actions converted hm i a ha
    exact ⟨b, hb, convInitAction_cases a b hfa⟩
  · intro v hv hs
    have hlc0 : aget (agetObj config3 "lifecycle_config") "idle_delete_ttl" = some v := by
      rw [hlc_eq]; exact hv
    have h1' : lc1 = agetObj config3 "lifecycle_config" := by
      have := convLifecycleKey_nonstr (agetObj config3 "lifecycle_config")
        "idle_delete_ttl" v hlc0 hs
      rw [this] at h1
      injection h1 with h1
      rw [h1]
    have hlc2 : aget lc2 "idle_delete_ttl" = aget lc1 "idle_delete_ttl" :=
      convLifecycleKey_ne lc1 lc2 "auto_delete_ttl" "idle_delete_ttl" h2 (by decide)
    have : lifecycleOf (.obj (aset d.asObj "config"
        (.obj (aset config3 "lifecycle_config" (.obj lc2))))) = lc2 := by
      unfold lifecycleOf agetObj
      rw [hcfg', aget_aset_self]
      rfl
    rw [this, hlc2, h1', hlc0]
  · intro v hv hs
    have hlc0 : aget (agetObj config3 "lifecycle_config") "auto_delete_ttl" = some v := by
      rw [hlc_eq]; exact hv
    have hlc1 : aget lc1 "auto_delete_ttl" = some v := by
      rw [convLifecycleKey_ne (agetObj config3 "lifecycle_config") lc1
        "idle_delete_ttl" "auto_delete_ttl" h1 (by decide)]
      exact hlc0
    have h2' : lc2 = lc1 := by
      have := convLifecycleKey_nonstr lc1 "auto_delete_ttl" v hlc1 hs
      rw [this] at h2
      injection h2 with h2
      rw [h2]
    have : lifecycleOf (.obj (aset d.asObj "config"
        (.obj (aset config3 "lifecycle_config" (.obj lc2))))) = lc2 := by
      unfold lifecycleOf agetObj
      rw [hcfg', aget_aset_self]
      rfl
    rw [this, h2', hlc1]

/-- C6 witness: a concrete tree with an action timeout `"10m"` and a
structured `idle_delete_ttl` of 300 seconds. -/
theorem convert_duration_spec_witness :
    firstActionTimeout durationConverted =
      some (.obj [("seconds", .i 600), ("nanos", .i 0)]) ∧
    aget (lifecycleOf durationConverted) "idle_delete_ttl" =
      some (.obj [("seconds", .i 300), ("nanos", .i 0)]) := by
  have h := convert_duration_spec durationTemplate durationConverted (by rfl)
  constructor
  · obtain ⟨b, hb, h10, _⟩ := h.1 0 (.obj [
      ("executable_file", .s "gs://bucket/startup.sh"),
      ("execution_timeout", .s "10m")]) (by rfl)
    have hbt := h10 (by rfl)
    unfold firstActionTimeout
    rw [hb]
    simpa using hbt
  · exact h.2.1 (.obj [("seconds", .i 300), ("nanos", .i 0)]) (by rfl) (by rfl)

/-! ## Stage lemmas for the build pipeline (C1 / C3 / C7) -/

theorem asObj_obj (l : List (String × JVal)) : (JVal.obj l).asObj = l := rfl

theorem agetObj_aset_self (l : List (String × JVal)) (k : String) (v : JVal) :
    agetObj (aset l k v) k = v.asObj := by
  unfold agetObj
  rw [aget_aset_self, Option.getD_some]

theorem agetObj_aset_ne (l : List (String × JVal)) (k k' : String) (v : JVal)
    (hk : k' ≠ k) : agetObj (aset l k' v) k = agetObj l k := by
  unfold agetObj
  rw [aget_aset_ne _ _ _ _ hk]

theorem agetObj_asetdefault_obj (l : List (String × JVal)) (k : String) :
    agetObj (asetdefault l k (.obj [])) k = agetObj l k := by
  unfold agetObj
  rw [aget_asetdefault_self, Option.getD_some]

theorem agetObj_asetdefault_ne (l : List (String × JVal)) (k k' : String) (v : JVal)
    (hk : k' ≠ k) : agetObj (asetdefault l k' v) k = agetObj l k := by
  unfold agetObj
  rw [aget_asetdefault_ne _ _ _ _ hk]

theorem cfgOf_obj_aset (root : List (String × JVal)) (X : JVal) :
    cfgOf (.obj (aset root "config" X)) = X.asObj := by
  unfold cfgOf agetObj
  rw [show (JVal.obj (aset root "config" X)).asObj = aset root "config" X from rfl,
    aget_aset_self, Option.getD_some]

theorem gceOf_congr (a b : JVal)
    (h : aget (cfgOf a) "gce_cluster_config" = aget (cfgOf b) "gce_cluster_config") :
    gceOf a = gceOf b := by
  unfold gceOf agetObj
  rw [h]

theorem propsOf_congr (a b : JVal)
    (h : aget (cfgOf a) "software_config" = aget (cfgOf b) "software_config") :
    propsOf a = propsOf b := by
  unfold propsOf swOf agetObj
  rw [h]

theorem build_decompose (cfg : SpawnerCfg) (uo : UserOptions) (cluster_data : JVal)
    (loadDef : Option String → JVal) (d : JVal)
    (h : _build_cluster_config cfg uo cluster_data loadDef = .ok d) :
    ∃ rz st data, buildMerged cfg uo cluster_data loadDef = .ok rz ∧
      stampTail cfg rz = .ok st ∧
      convert_string_to_duration st = .ok data ∧
      d = stripNamenodeProps (stripServerGroupUris data) := by
  unfold _build_cluster_config at h
  simp only [bind, Except.bind, pure, Except.pure] at h
  split at h
  · exact absurd h (by simp)
  rename_i data hpre
  split at h
  · exact absurd h (by simp)
  rename_i u hchk
  injection h with h
  unfold buildPreGeo at hpre
  simp only [bind, Except.bind, pure, Except.pure] at hpre
  split at hpre
  · exact absurd hpre (by simp)
  rename_i st hst
  unfold buildStamped at hst
  split at hst
  · exact absurd hst (by simp)
  rename_i rz hbm
  exact ⟨rz, st, data, hbm, hst, hpre, h.symm⟩

theorem buildMerged_zone (cfg : SpawnerCfg) (uo : UserOptions) (cluster_data : JVal)
    (loadDef : Option String → JVal) (rz : List (String × JVal) × String)
    (h : buildMerged cfg uo cluster_data loadDef = .ok rz) :
    rz.2 = if uo.isEmpty then cfg.zone else strOfOpt (uoGet uo "cluster_zone") := by
  unfold buildMerged at h
  by_cases hu : uo.isEmpty = true
  · rw [if_pos hu] at h
    rw [if_pos hu]
    simp only [pure, Except.pure] at h
    injection h with h
    rw [← h]
  · rw [if_neg hu] at h
    rw [if_neg hu]
    simp only [bind, Except.bind, pure, Except.pure] at h
    split at h
    · split at h
      · exact absurd h (by simp)
      · injection h with h
        rw [← h]
    · injection h with h
      rw [← h]

theorem agetObj_congr (l l' : List (String × JVal)) (k : String)
    (h : aget l k = aget l' k) : agetObj l k = agetObj l' k := by
  unfold agetObj
  rw [h]

theorem agetObj_of_aget_obj (l : List (String × JVal)) (k : String)
    (g : List (String × JVal)) (h : aget l k = some (.obj g)) :
    agetObj l k = g := by
  unfold agetObj
  rw [h, Option.getD_some, asObj_obj]

theorem stampIdentity_project (cfg : SpawnerCfg) (root : List (String × JVal)) :
    aget (stampIdentity cfg root) "project_id" = some (.s cfg.project) := by
  simp [stampIdentity, aget_aset, aget_asetdefault]

theorem stampIdentity_name (cfg : SpawnerCfg) (root : List (String × JVal)) :
    aget (stampIdentity cfg root) "cluster_name" = some (.s (clustername cfg)) := by
  simp [stampIdentity, aget_aset, aget_asetdefault]

theorem stampZone_gce (cfg : SpawnerCfg) (z : String) (config : List (String × JVal)) :
    aget (stampZone cfg z config) "gce_cluster_config" =
      some (.obj (aset (agetObj (asetdefault config "gce_cluster_config" (.obj []))
        "gce_cluster_config") "zone_uri" (.s (zoneUriStr cfg.project z)))) := by
  simp [stampZone, updObj, aget_aset_self]

theorem stampSwShell_gce (config : List (String × JVal)) :
    aget (stampSwShell config) "gce_cluster_config" =
      aget config "gce_cluster_config" := by
  simp [stampSwShell, updObj, aget_aset, aget_asetdefault]

theorem stampGateway_gce (config : List (String × JVal)) :
    aget (stampGateway config) "gce_cluster_config" =
      aget config "gce_cluster_config" := by
  simp [stampGateway, updObj, aget_aset, aget_asetdefault]

theorem stampGateway_sw (config : List (String × JVal)) :
    aget (stampGateway config) "software_config" =
      aget config "software_config" := by
  simp [stampGateway, updObj, aget_aset, aget_asetdefault]

theorem stampImage_props (cfg : SpawnerCfg) (config sw : List (String × JVal)) :
    aget (stampImage cfg config sw) "properties" = aget sw "properties" := by
  simp [stampImage, aget_aset, aget_ite]

theorem stampProps_facts (cfg : SpawnerCfg) (p : List (String × JVal)) :
    aget (stampProps cfg p) "dataproc:jupyter.hub.args" = some (.s cfg.args_str) ∧
    aget (stampProps cfg p) "dataproc:jupyter.hub.env" = some (.s cfg.env_str) ∧
    aget (stampProps cfg p) "dataproc:jupyter.hub.menu.enabled" = some (.s "true") := by
  refine ⟨?_, ?_, ?_⟩ <;> simp [stampProps, aget_aset, aget_apop, aget_ite]

theorem stampExclusive_ne (cfg : SpawnerCfg) (p : List (String × JVal)) (k : String)
    (hk : k ≠ "dataproc:dataproc.exclusive.user") :
    aget (stampExclusive cfg p) k = aget p k := by
  unfold stampExclusive
  by_cases hc : (cfg.force_single_user = true ∨
      amem p "dataproc:dataproc.exclusive.user" = true)
  · rw [if_pos hc, aget_aset_ne _ _ _ _ (Ne.symm hk)]
  · rw [if_neg hc]

theorem stampComponents_ok (cfg : SpawnerCfg) (sw sw2 : List (String × JVal))
    (h : stampComponents cfg sw = .ok sw2) :
    ∃ comps, sw2 = aset (asetdefault sw "optional_components" (.arr []))
      "optional_components" (.arr comps) := by
  simp only [stampComponents] at h
  split at h
  · exact absurd h (by simp)
  rename_i comps hcomps
  injection h with h
  exact ⟨_, h.symm⟩

theorem stampAssemble_ok (root config : List (String × JVal))
    (sw2e : Except Err (List (String × JVal))) (d : JVal)
    (h : stampAssemble root config sw2e = .ok d) :
    ∃ sw2, sw2e = .ok sw2 ∧ d = .obj (aset root "config"
      (.obj (aset config "software_config" (.obj sw2)))) := by
  unfold stampAssemble at h
  split at h
  · exact absurd h (by simp)
  rename_i sw2
  injection h with h
  exact ⟨sw2, rfl, h.symm⟩

theorem stampConfigG_gce (cfg : SpawnerCfg) (z : String)
    (root : List (String × JVal)) :
    aget (stampConfigG cfg z root) "gce_cluster_config" =
      some (.obj (aset (agetObj (asetdefault (agetObj root "config")
        "gce_cluster_config" (.obj [])) "gce_cluster_config") "zone_uri"
        (.s (zoneUriStr cfg.project z)))) := by
  simp only [stampConfigG]
  rw [stampGateway_gce, aget_aset_ne _ _ _ _ (by decide), stampSwShell_gce,
    stampZone_gce]

theorem stampConfigG_sw (cfg : SpawnerCfg) (z : String)
    (root : List (String × JVal)) :
    aget (stampConfigG cfg z root) "software_config" =
      some (.obj (stampSwX cfg (stampSwShell (stampZone cfg z
        (agetObj root "config"))))) := by
  simp only [stampConfigG]
  rw [stampGateway_sw, aget_aset_self]

theorem stampSwX_props (cfg : SpawnerCfg) (config : List (String × JVal)) :
    aget (stampSwX cfg config) "properties" =
      some (.obj (stampExclusive cfg (stampProps cfg
        (agetObj (agetObj config "software_config") "properties")))) := by
  simp only [stampSwX]
  rw [aget_aset_self]
  rw [show agetObj (stampImage cfg config (stampSw1 cfg config)) "properties" =
      stampProps cfg (agetObj (agetObj config "software_config") "properties") from by
    refine agetObj_of_aget_obj _ _ _ ?_
    rw [stampImage_props]
    simp only [stampSw1]
    rw [aget_aset_self]]

theorem stampTail_facts (cfg : SpawnerCfg) (rz : List (String × JVal) × String)
    (d : JVal) (h : stampTail cfg rz = .ok d) :
    aget d.asObj "project_id" = some (.s cfg.project) ∧
    aget d.asObj "cluster_name" = some (.s (clustername cfg)) ∧
    aget (gceOf d) "zone_uri" = some (.s (zoneUriStr cfg.project rz.2)) ∧
    countKey (gceOf d) "zone_uri" = 1 ∧
    aget (propsOf d) "dataproc:jupyter.hub.args" = some (.s cfg.args_str) ∧
    aget (propsOf d) "dataproc:jupyter.hub.env" = some (.s cfg.env_str) ∧
    aget (propsOf d) "dataproc:jupyter.hub.menu.enabled" = some (.s "true") := by
  have h' : stampAssemble (stampIdentity cfg rz.1)
      (stampConfigG cfg rz.2 (stampIdentity cfg rz.1))
      (stampComponents cfg (agetObj (stampConfigG cfg rz.2 (stampIdentity cfg rz.1))
        "software_config")) = .ok d := h
  obtain ⟨sw2, hs2, hd⟩ := stampAssemble_ok _ _ _ _ h'
  subst hd
  obtain ⟨comps, hc⟩ := stampComponents_ok cfg _ sw2 hs2
  set R := stampIdentity cfg rz.1 with hR
  set CG := stampConfigG cfg rz.2 R with hCG
  have hroot : (JVal.obj (aset R "config" (.obj (aset CG "software_config"
      (.obj sw2))))).asObj = aset R "config" (.obj (aset CG "software_config"
      (.obj sw2))) := rfl
  have hcfg : cfgOf (.obj (aset R "config" (.obj (aset CG "software_config"
      (.obj sw2))))) = aset CG "software_config" (.obj sw2) := by
    rw [cfgOf_obj_aset, asObj_obj]
  have hgce : gceOf (.obj (aset R "config" (.obj (aset CG "software_config"
      (.obj sw2))))) =
      aset (agetObj (asetdefault (agetObj R "config") "gce_cluster_config" (.obj []))
        "gce_cluster_config") "zone_uri" (.s (zoneUriStr cfg.project rz.2)) := by
    unfold gceOf
    rw [hcfg]
    refine agetObj_of_aget_obj _ _ _ ?_
    rw [aget_aset_ne _ _ _ _ (by decide), hCG, stampConfigG_gce]
  have hCGsw : agetObj CG "software_config" =
      stampSwX cfg (stampSwShell (stampZone cfg rz.2 (agetObj R "config"))) := by
    refine agetObj_of_aget_obj _ _ _ ?_
    rw [hCG, stampConfigG_sw]
  have hprops : propsOf (.obj (aset R "config" (.obj (aset CG "software_config"
      (.obj sw2))))) =
      stampExclusive cfg (stampProps cfg (agetObj (agetObj (stampSwShell
        (stampZone cfg rz.2 (agetObj R "config"))) "software_config")
        "properties")) := by
    unfold propsOf swOf
    rw [hcfg]
    rw [show agetObj (aset CG "software_config" (.obj sw2)) "software_config" = sw2
      from agetObj_of_aget_obj _ _ _ (aget_aset_self _ _ _)]
    refine agetObj_of_aget_obj _ _ _ ?_
    rw [hc, aget_aset_ne _ _ _ _ (by decide),
      aget_asetdefault_ne _ _ _ _ (by decide), hCGsw, stampSwX_props]
  refine ⟨?_, ?_, ?_, ?_, ?_, ?_, ?_⟩
  · rw [hroot, aget_aset_ne _ _ _ _ (by decide), hR, stampIdentity_project]
  · rw [hroot, aget_aset_ne _ _ _ _ (by decide), hR, stampIdentity_name]
  · rw [hgce, aget_aset_self]
  · rw [hgce]
    exact countKey_aset_self _ _ _
  · rw [hprops, stampExclusive_ne _ _ _ (by decide)]
    exact (stampProps_facts cfg _).1
  · rw [hprops, stampExclusive_ne _ _ _ (by decide)]
    exact (stampProps_facts cfg _).2.1
  · rw [hprops, stampExclusive_ne _ _ _ (by decide)]
    exact (stampProps_facts cfg _).2.2

theorem convert_preserves (d d' : JVal)
    (h : convert_string_to_duration d = .ok d') :
    aget d'.asObj "project_id" = aget d.asObj "project_id" ∧
    aget d'.asObj "cluster_name" = aget d.asObj "cluster_name" ∧
    aget (cfgOf d') "gce_cluster_config" = aget (cfgOf d) "gce_cluster_config" ∧
    aget (cfgOf d') "software_config" = aget (cfgOf d) "software_config" := by
  unfold convert_string_to_duration at h
  simp only [bind, Except.bind, pure, Except.pure] at h
  split at h
  · exact absurd h (by simp)
  rename_i converted hm
  split at h
  · exact absurd h (by simp)
  rename_i lc1 h1
  split at h
  · exact absurd h (by simp)
  rename_i lc2 h2
  injection h with h
  subst h
  refine ⟨?_, ?_, ?_, ?_⟩ <;>
    simp [cfgOf, agetObj, aget_aset, aget_asetdefault, aget_ite, JVal.asObj,
      Option.getD]

theorem stripGroupStep_ne (config : List (String × JVal)) (grp k : String)
    (hk : grp ≠ k) : aget (stripGroupStep config grp) k = aget config k := by
  unfold stripGroupStep
  by_cases hm : amem config grp = true
  · rw [if_pos hm, aget_aset_ne _ _ _ _ hk]
  · rw [if_neg hm]

theorem strip1_preserves (d : JVal) :
    aget (stripServerGroupUris d).asObj "project_id" = aget d.asObj "project_id" ∧
    aget (stripServerGroupUris d).asObj "cluster_name" = aget d.asObj "cluster_name" ∧
    aget (cfgOf (stripServerGroupUris d)) "gce_cluster_config" =
      aget (cfgOf d) "gce_cluster_config" ∧
    aget (cfgOf (stripServerGroupUris d)) "software_config" =
      aget (cfgOf d) "software_config" := by
  refine ⟨?_, ?_, ?_, ?_⟩
  · simp only [stripServerGroupUris]
    rw [show (JVal.obj (aset d.asObj "config" (.obj (["master_config",
      "worker_config", "secondary_worker_config"].foldl stripGroupStep
      (agetObj d.asObj "config"))))).asObj = aset d.asObj "config" (.obj
      (["master_config", "worker_config", "secondary_worker_config"].foldl
      stripGroupStep (agetObj d.asObj "config"))) from rfl]
    rw [aget_aset_ne _ _ _ _ (by decide)]
  · simp only [stripServerGroupUris]
    rw [show (JVal.obj (aset d.asObj "config" (.obj (["master_config",
      "worker_config", "secondary_worker_config"].foldl stripGroupStep
      (agetObj d.asObj "config"))))).asObj = aset d.asObj "config" (.obj
      (["master_config", "worker_config", "secondary_worker_config"].foldl
      stripGroupStep (agetObj d.asObj "config"))) from rfl]
    rw [aget_aset_ne _ _ _ _ (by decide)]
  · simp only [stripServerGroupUris]
    rw [cfgOf_obj_aset]
    simp only [JVal.asObj, List.foldl]
    rw [stripGroupStep_ne _ _ _ (by decide), stripGroupStep_ne _ _ _ (by decide),
      stripGroupStep_ne _ _ _ (by decide)]
    rfl
  · simp only [stripServerGroupUris]
    rw [cfgOf_obj_aset]
    simp only [JVal.asObj, List.foldl]
    rw [stripGroupStep_ne _ _ _ (by decide), stripGroupStep_ne _ _ _ (by decide),
      stripGroupStep_ne _ _ _ (by decide)]
    rfl

theorem strip2_preserves (d : JVal) :
    aget (stripNamenodeProps d).asObj "project_id" = aget d.asObj "project_id" ∧
    aget (stripNamenodeProps d).asObj "cluster_name" = aget d.asObj "cluster_name" ∧
    aget (cfgOf (stripNamenodeProps d)) "gce_cluster_config" =
      aget (cfgOf d) "gce_cluster_config" ∧
    (∀ k, k ≠ "hdfs:dfs.namenode.lifeline.rpc-address" →
      k ≠ "hdfs:dfs.namenode.servicerpc-address" →
      aget (propsOf (stripNamenodeProps d)) k = aget (propsOf d) k) := by
  have hswEq : agetObj (asetdefault (agetObj d.asObj "config") "software_config"
      (.obj [])) "software_config" =
      agetObj (agetObj d.asObj "config") "software_config" :=
    agetObj_asetdefault_obj _ _
  refine ⟨?_, ?_, ?_, ?_⟩
  · simp only [stripNamenodeProps]
    rw [show ∀ X, (JVal.obj (aset d.asObj "config" X)).asObj =
      aset d.asObj "config" X from fun _ => rfl]
    rw [aget_aset_ne _ _ _ _ (by decide)]
  · simp only [stripNamenodeProps]
    rw [show ∀ X, (JVal.obj (aset d.asObj "config" X)).asObj =
      aset d.asObj "config" X from fun _ => rfl]
    rw [aget_aset_ne _ _ _ _ (by decide)]
  · simp only [stripNamenodeProps]
    rw [cfgOf_obj_aset]
    simp only [asObj_obj]
    by_cases hsw : (agetObj (asetdefault (agetObj d.asObj "config")
        "software_config" (.obj [])) "software_config").isEmpty = true
    · rw [if_pos hsw]
      unfold cfgOf
      rw [aget_asetdefault_ne _ _ _ _ (by decide)]
    · rw [if_neg hsw]
      unfold cfgOf
      rw [aget_aset_ne _ _ _ _ (by decide),
        aget_asetdefault_ne _ _ _ _ (by decide)]
  · intro k hk1 hk2
    simp only [stripNamenodeProps]
    unfold propsOf swOf
    rw [cfgOf_obj_aset]
    simp only [asObj_obj]
    by_cases hsw : (agetObj (asetdefault (agetObj d.asObj "config")
        "software_config" (.obj [])) "software_config").isEmpty = true
    · rw [if_pos hsw, hswEq]
      unfold cfgOf
      rfl
    · rw [if_neg hsw]
      rw [agetObj_aset_self]
      simp only [asObj_obj]
      by_cases hp : (agetObj (asetdefault (agetObj (asetdefault (agetObj d.asObj
          "config") "software_config" (.obj [])) "software_config") "properties"
          (.obj [])) "properties").isEmpty = true
      · rw [if_pos hp, agetObj_asetdefault_obj, hswEq]
        unfold cfgOf
        rfl
      · rw [if_neg hp, agetObj_aset_self]
        simp only [asObj_obj]
        rw [aget_apop_ne _ _ _ (Ne.symm hk2), aget_apop_ne _ _ _ (Ne.symm hk1)]
        rw [agetObj_asetdefault_obj, hswEq]
        unfold cfgOf
        rfl

/-! ## C1 — build invariants -/

/-- C1: for every operator configuration, form submission, admin template and
template loader, a successful `_build_cluster_config` carries the configured
`project_id`, the resolved `cluster_name`, exactly one `zone_uri` under
`config.gce_cluster_config` (a project/zone URI for some resolved zone), and
the three hub-bootstrap software properties, regardless of what the template
or form set, overrode or omitted. -/
theorem build_invariants (cfg : SpawnerCfg) (uo : UserOptions) (cluster_data : JVal)
    (loadDef : Option String → JVal) (d : JVal)
    (h : _build_cluster_config cfg uo cluster_data loadDef = .ok d) :
    aget d.asObj "project_id" = some (.s cfg.project) ∧
    aget d.asObj "cluster_name" = some (.s (clustername cfg)) ∧
    countKey (gceOf d) "zone_uri" = 1 ∧
    (∃ z, aget (gceOf d) "zone_uri" = some (.s (zoneUriStr cfg.project z))) ∧
    aget (propsOf d) "dataproc:jupyter.hub.args" = some (.s cfg.args_str) ∧
    aget (propsOf d) "dataproc:jupyter.hub.env" = some (.s cfg.env_str) ∧
    aget (propsOf d) "dataproc:jupyter.hub.menu.enabled" = some (.s "true") := by
  obtain ⟨rz, st, data, hbm, hst, hcv, hd⟩ :=
    build_decompose cfg uo cluster_data loadDef d h
  obtain ⟨hp, hn, hz, hcount, ha, he, hm⟩ := stampTail_facts cfg rz st hst
  obtain ⟨cp, cn, cg, cs⟩ := convert_preserves st data hcv
  obtain ⟨p1, n1, g1, s1⟩ := strip1_preserves data
  obtain ⟨p2, n2, g2, s2⟩ := strip2_preserves (stripServerGroupUris data)
  subst hd
  have hgceEq : gceOf (stripNamenodeProps (stripServerGroupUris data)) = gceOf st := by
    rw [gceOf_congr _ _ g2, gceOf_congr _ _ g1, gceOf_congr _ _ cg]
  refine ⟨?_, ?_, ?_, ⟨rz.2, ?_⟩, ?_, ?_, ?_⟩
  · rw [p2, p1, cp, hp]
  · rw [n2, n1, cn, hn]
  · rw [hgceEq]
    exact hcount
  · rw [hgceEq]
    exact hz
  · rw [s2 _ (by decide) (by decide), propsOf_congr _ _ s1, propsOf_congr _ _ cs, ha]
  · rw [s2 _ (by decide) (by decide), propsOf_congr _ _ s1, propsOf_congr _ _ cs, he]
  · rw [s2 _ (by decide) (by decide), propsOf_congr _ _ s1, propsOf_congr _ _ cs, hm]

/-- C1 witness: the invariants on a concrete successful build. -/
theorem build_invariants_witness :
    aget builtExample.asObj "project_id" = some (.s "test-project") ∧
    countKey (gceOf builtExample) "zone_uri" = 1 ∧
    aget (propsOf builtExample) "dataproc:jupyter.hub.args" = some (.s "ARGS") ∧
    aget (propsOf builtExample) "dataproc:jupyter.hub.menu.enabled" =
      some (.s "true") := by
  have h := build_invariants witnessCfg [] (imageTemplate "1.5-debian10") noTemplate
    builtExample rfl
  exact ⟨h.1, h.2.2.1, h.2.2.2.2.1, h.2.2.2.2.2.2⟩

/-! ## C3 — zone resolution -/

/-- C3 (corrected): zone resolution consults only the form submission and
the operator default — with any form options present the resolved zone is
the form's `cluster_zone` value, and with no form options it is the operator
default `cfg.zone`; the template-declared zone is never read. -/
theorem zone_resolution (cfg : SpawnerCfg) (uo : UserOptions) (cluster_data : JVal)
    (loadDef : Option String → JVal) (d : JVal)
    (h : _build_cluster_config cfg uo cluster_data loadDef = .ok d) :
    (uo.isEmpty = true →
      aget (gceOf d) "zone_uri" = some (.s (zoneUriStr cfg.project cfg.zone))) ∧
    (uo.isEmpty = false →
      aget (gceOf d) "zone_uri" =
        some (.s (zoneUriStr cfg.project (strOfOpt (uoGet uo "cluster_zone"))))) := by
  obtain ⟨rz, st, data, hbm, hst, hcv, hd⟩ :=
    build_decompose cfg uo cluster_data loadDef d h
  have hz := (stampTail_facts cfg rz st hst).2.2.1
  have hzz := buildMerged_zone cfg uo cluster_data loadDef rz hbm
  obtain ⟨cp, cn, cg, cs⟩ := convert_preserves st data hcv
  obtain ⟨p1, n1, g1, s1⟩ := strip1_preserves data
  obtain ⟨p2, n2, g2, s2⟩ := strip2_preserves (stripServerGroupUris data)
  subst hd
  have hgceEq : gceOf (stripNamenodeProps (stripServerGroupUris data)) = gceOf st := by
    rw [gceOf_congr _ _ g2, gceOf_congr _ _ g1, gceOf_congr _ _ cg]
  constructor
  · intro hu
    have hzv : rz.2 = cfg.zone := by
      rw [hzz, if_pos hu]
    rw [hgceEq, ← hzv]
    exact hz
  · intro hu
    have hzv : rz.2 = strOfOpt (uoGet uo "cluster_zone") := by
      rw [hzz, if_neg (by simp [hu])]
    rw [hgceEq, ← hzv]
    exact hz

/-- C3 witness: with a form zone the build resolves the form's choice; with
no form options it resolves the operator default. -/
theorem zone_resolution_witness :
    aget (gceOf formBuilt) "zone_uri" =
      some (.s (zoneUriStr "test-project" "us-west1-b")) ∧
    aget (gceOf defaultBuilt) "zone_uri" =
      some (.s (zoneUriStr "test-project" "us-central1-a")) := by
  refine ⟨?_, ?_⟩
  · exact (zone_resolution witnessCfg formUo (.obj []) zoneLoad formBuilt rfl).2 rfl
  · exact (zone_resolution witnessCfg [] zoneTemplate noTemplate defaultBuilt rfl).1 rfl

/-- C3 counterexample: a template declaring zone `us-east1-b` with no form
submission still resolves the operator default `us-central1-a`, so the
template-declared zone does not take priority over the default. -/
theorem zone_template_ignored :
    zoneStrOf (_build_cluster_config witnessCfg [] zoneTemplate noTemplate) =
      zoneUriStr "test-project" "us-central1-a" ∧
    jStrOf (aget (agetObj (agetObj zoneTemplate.asObj "config") "gce_cluster_config")
      "zone_uri") = zoneUriStr "p" "us-east1-b" ∧
    zoneUriStr "test-project" "us-central1-a" ≠ zoneUriStr "p" "us-east1-b" := by
  exact ⟨rfl, rfl, by decide⟩

/-! ## C7 — geo-scope rejection -/

/-- C7: a `subnetwork_uri` whose embedded region segment (index `-3` of the
slash-split URI) differs from the operator region and is not `"global"`
makes the build fail with the geo-mismatch message before any create call is
submitted, while a segment equal to `"global"` never raises. -/
theorem geo_scope (cfg : SpawnerCfg) (uo : UserOptions) (cluster_data : JVal)
    (loadDef : Option String → JVal) (rand : List String → String)
    (oracle : Nat → Option (ApiErrKind × String)) (data : JVal) (uri geo : String)
    (h : buildPreGeo cfg uo cluster_data loadDef = .ok data)
    (hsub : aget (gceOf data) "subnetwork_uri" = some (.s uri))
    (hgeo : pyIndex (pySplit '/' uri) (-3) = some geo)
    (hlen : (pySplit '/' uri).length > 1) :
    (geo ≠ cfg.region → geo ≠ "global" →
      _build_cluster_config cfg uo cluster_data loadDef =
        .error (.http (uriGeoMessage geo uri cfg.region)) ∧
      create_cluster_calls cfg uo cluster_data loadDef rand oracle =
        ([], .error (.http (uriGeoMessage geo uri cfg.region)))) ∧
    (geo = "global" → _check_uri_geo uri (-3) cfg.region false = .ok geo) := by
  constructor
  · intro hne hng
    have hcg : _check_uri_geo uri (-3) cfg.region false =
        .error (.http (uriGeoMessage geo uri cfg.region)) := by
      simp only [_check_uri_geo]
      rw [if_pos hlen]
      simp only [hgeo]
      simp only [Bool.false_eq_true, if_false]
      exact if_pos ⟨hne, hng⟩
    have hsub' : aget (agetObj (agetObj data.asObj "config") "gce_cluster_config")
        "subnetwork_uri" = some (.s uri) := hsub
    have hcs : checkClusterSubnet cfg data =
        .error (.http (uriGeoMessage geo uri cfg.region)) := by
      simp only [checkClusterSubnet]
      rw [hsub']
      simp only [bind, Except.bind, JVal.asStr, hcg]
    have hb : _build_cluster_config cfg uo cluster_data loadDef =
        .error (.http (uriGeoMessage geo uri cfg.region)) := by
      simp only [_build_cluster_config, bind, Except.bind, pure, Except.pure, h, hcs]
    exact ⟨hb, by simp only [create_cluster_calls, hb]⟩
  · intro hg
    subst hg
    simp only [_check_uri_geo]
    rw [if_pos hlen]
    simp only [hgeo]
    simp

/-- C7 witness: a subnetwork in `us-east1` against the operator region
`us-central1` fails the build with the geo message, and no create call is
submitted. -/
theorem geo_scope_witness :
    _build_cluster_config witnessCfg [] (subnetTemplate "us-east1") noTemplate =
      .error (.http (uriGeoMessage "us-east1"
        "projects/test-project/regions/us-east1/subnetworks/default"
        "us-central1")) ∧
    create_cluster_calls witnessCfg [] (subnetTemplate "us-east1") noTemplate
      headRand quotaOracle =
      ([], .error (.http (uriGeoMessage "us-east1"
        "projects/test-project/regions/us-east1/subnetworks/default"
        "us-central1"))) := by
  exact (geo_scope witnessCfg [] (subnetTemplate "us-east1") noTemplate headRand
    quotaOracle preGeoExample
    "projects/test-project/regions/us-east1/subnetworks/default" "us-east1"
    rfl rfl rfl (by decide)).1 (by decide) (by decide)

end DataprocSpawner
